import Mathlib

/-!
# Verification of the rustysynth SoundFont decoder core

Shallow embedding of the container parser and generator/zone resolution
engine of the `rustysynth` fork (files `src/soundfont.rs`, `src/generator.rs`,
`src/error.rs`), together with models of the components the decoder calls
(`BinaryReader`, `SoundFontInfo`, `SoundFontSampleData`, `SoundFontParameters`)
whose sources are not part of this tree; those models are built from the
specification and are marked `Modelled from the spec:` in their doc comments.

The input stream is modelled at the granularity of `read_exact` calls made by
the binary reader: the decoder is generic over any `std::io::Read`
implementation, so one stream element is the response of the underlying reader
to one exact-length read request — either the requested bytes or an I/O
failure.  A plain in-memory byte buffer corresponds to the special case where
the responses are the successive slices of the buffer.
-/

namespace RustySynth

/-- One response of the underlying reader to a `read_exact` request:
`some bs` means the request was filled with the bytes `bs`,
`none` means the reader reported an I/O error. -/
abbrev ReadResp := Option (List Nat)

/-- The reader state: the sequence of responses the underlying `Read`
implementation will give to successive `read_exact` calls. -/
abbrev Stream := List ReadResp

/-- A 4-byte chunk tag (`four_cc.rs` is not in the tree; the type's shape is
fixed by its uses in `soundfont.rs` and `error.rs`: 4 raw bytes compared for
equality). -/
structure FourCC where
  b0 : Nat
  b1 : Nat
  b2 : Nat
  b3 : Nat
deriving DecidableEq, Repr

/-- The error enumeration of `error.rs` (`ParseError`), with `IoError`
collapsed to a single marker since the decoder never inspects the payload of
a propagated `std::io::Error`. -/
inductive ParseError where
  | IoError
  | RiffChunkNotFound
  | InvalidRiffChunkType (expected actual : FourCC)
  | ListChunkNotFound
  | InvalidListChunkType (expected actual : FourCC)
  | ListContainsUnknownId (id : FourCC)
  | SampleDataNotFound
  | UnsupportedSampleFormat
  | SubChunkNotFound (id : FourCC)
  | InvalidPresetList
  | InvalidInstrumentId (preset_id instrument_id : Nat)
  | InvalidPreset (id : Nat)
  | PresetNotFound
  | InvalidInstrumentList
  | InvalidSampleId (instrument_id sample_id : Nat)
  | InvalidInstrument (id : Nat)
  | InstrumentNotFound
  | InvalidSampleHeaderList
  | InvalidZoneList
  | ZoneNotFound
  | InvalidGeneratorList
  | SanityCheckFailed
deriving DecidableEq, Repr

/-- How a Rust call can fail: either by returning `Err e` (`err e`), or by
panicking (`panic`), e.g. on a checked-arithmetic overflow in a debug build. -/
inductive Fail where
  | err (e : ParseError)
  | panic
deriving DecidableEq, Repr

/-- `BinaryReader::read_exact` semantics over the response stream: one call
consumes one response.  `Modelled from the spec:` `binary_reader.rs` is not in
the tree; per the spec (§4.1) every read either obtains the exact requested
byte count or fails with an I/O error.  A zero-length request performs no read
(as `Read::read_exact` on an empty buffer).  The result is paired with the
reader state after the call, which advances even when the result is an error
(the caller may discard the `Result` while the reader stays advanced).
The interpretation functions below reduce each byte mod 256 since a Rust
byte is a `u8`. -/
def readExact (n : Nat) (s : Stream) : Except Fail (List Nat) × Stream :=
  if n = 0 then (.ok [], s)
  else
    match s with
    | [] => (.error (.err .IoError), [])
    | none :: rest => (.error (.err .IoError), rest)
    | some bs :: rest =>
        (if bs.length = n then .ok bs else .error (.err .IoError), rest)

/-- Checked read of `n` bytes: propagates the error (the `?` operator). -/
def readBytes (n : Nat) (s : Stream) : Except Fail (List Nat × Stream) :=
  match readExact n s with
  | (.ok bs, s') => .ok (bs, s')
  | (.error e, _) => .error e

/-- Interpret 4 bytes as a `FourCC` (after the `u8` reduction). -/
def fourCCOfBytes (l : List Nat) : FourCC :=
  match l.map (· % 256) with
  | [a, b, c, d] => ⟨a, b, c, d⟩
  | _ => ⟨0, 0, 0, 0⟩

/-- `BinaryReader::read_four_cc`. -/
def readFourCC (s : Stream) : Except Fail (FourCC × Stream) :=
  match readBytes 4 s with
  | .ok (bs, s') => .ok (fourCCOfBytes bs, s')
  | .error e => .error e

/-- A little-endian 16-bit unsigned value from 2 bytes. -/
def u16OfBytes (l : List Nat) : Nat :=
  match l with
  | [a, b] => a % 256 + 256 * (b % 256)
  | _ => 0

/-- `BinaryReader::read_u16` (little-endian). -/
def readU16 (s : Stream) : Except Fail (Nat × Stream) :=
  match readBytes 2 s with
  | .ok (bs, s') => .ok (u16OfBytes bs, s')
  | .error e => .error e

/-- A little-endian 32-bit value from 4 bytes (used only as a chunk size;
the decoder treats it as a length, so it is kept as a `Nat`). -/
def u32OfBytes (l : List Nat) : Nat :=
  match l.map (· % 256) with
  | [a, b, c, d] => a + 256 * b + 65536 * c + 16777216 * d
  | _ => 0

/-- `BinaryReader::read_i32` in checked position (followed by `?`). -/
def readU32 (s : Stream) : Except Fail (Nat × Stream) :=
  match readBytes 4 s with
  | .ok (bs, s') => .ok (u32OfBytes bs, s')
  | .error e => .error e

/-- `BinaryReader::read_i32` in discarding position: `soundfont.rs:39` binds
the `Result` to `_size` without `?`, so the read happens (the reader
advances) but the result — value or error — is dropped. -/
def readU32Discard (s : Stream) : Stream :=
  (readExact 4 s).2

/-! ## `generator.rs` -/

/-- `Generator` of `generator.rs`: a raw generator record,
`generator_type : u16`, `value : u16`. -/
structure Generator where
  generator_type : Nat
  value : Nat
deriving DecidableEq, Repr

/-- `Generator::new`: two little-endian `u16` reads. -/
def Generator.new (s : Stream) : Except Fail (Generator × Stream) := do
  let (generator_type, s) ← readU16 s
  let (value, s) ← readU16 s
  .ok (⟨generator_type, value⟩, s)

/-- The `for _i in 0..count` loop of `Generator::read_from_chunk`. -/
def readGenerators (count : Nat) (s : Stream) : Except Fail (List Generator × Stream) :=
  match count with
  | 0 => .ok ([], s)
  | k + 1 => do
      let (g, s) ← Generator.new s
      let (gs, s) ← readGenerators k s
      .ok (g :: gs, s)

/-- `Generator::read_from_chunk`.  `size` is a `usize`.  When
`size % 4 == 0` and `size / 4 == 0` (i.e. `size == 0`), the source computes
`size / 4 - 1`, which underflows `usize`: a debug build panics with an
arithmetic-overflow error (a release build wraps to `2^64 - 1` and attempts
that many reads); this is modelled as `Fail.panic`. -/
def Generator.read_from_chunk (s : Stream) (size : Nat) :
    Except Fail (List Generator × Stream) :=
  if size % 4 ≠ 0 then .error (.err .InvalidGeneratorList)
  else if size / 4 = 0 then .error .panic
  else do
    let (generators, s) ← readGenerators (size / 4 - 1) s
    -- The last one is the terminator.
    let (_, s) ← Generator.new s
    .ok (generators, s)

/-! ## Generator-type constants and the resolution (default-cascading) engine

`generator_type.rs`, `zone.rs`, `preset.rs`, `preset_region.rs`,
`instrument.rs`, `instrument_region.rs` and `soundfont_parameters.rs` are not
in the tree; the definitions below are modelled from the spec (§3, §4.4, §4.5,
§4.6).  The dense generator array has `GeneratorType::COUNT = 61` slots (the
array type `[i16; 61]` appears in `soundfont.rs`); the linking generator types
are `instrument` for presets and `sampleID` for instruments. -/

/-- `GeneratorType::COUNT`: the number of generator slots (`[i16; 61]` in
`soundfont.rs`). -/
def genCount : Nat := 61

/-- The `instrument` linking generator type for preset zones. -/
def genInstrument : Nat := 41

/-- The `sampleID` linking generator type for instrument zones. -/
def genSampleID : Nat := 53

/-- Reinterpret a `u16` generator value as an `i16` (`value as i16`). -/
def i16val (v : Nat) : Int :=
  if v % 65536 < 32768 then ((v % 65536 : Nat) : Int)
  else ((v % 65536 : Nat) : Int) - 65536

/-- Reinterpret an `i16` as a `usize` (`as usize` sign-extends and wraps):
a non-negative value is itself, a negative one lands near `2^64`. -/
def usizeOfI16 (i : Int) : Nat :=
  (i % (18446744073709551616 : Int)).toNat

/-- A zone: the contiguous slice of raw generator records belonging to one
preset or instrument entry.  `Modelled from the spec:` §3 "Zone". -/
structure Zone where
  gens : List Generator
deriving DecidableEq, Repr

/-- Write one raw generator record into the dense array
(`gs[g.generator_type as usize] = g.value as i16`); records with a type
outside the enumeration are ignored.  `Modelled from the spec:` §4.5. -/
def applyGen (gs : List Int) (g : Generator) : List Int :=
  if g.generator_type < genCount then gs.set g.generator_type (i16val g.value) else gs

/-- Overlay a zone's records onto a dense array in file order, so that later
records with the same type overwrite earlier ones.  `Modelled from the
spec:` §4.5 (last-write-wins). -/
def overlay (gs : List Int) (zone : List Generator) : List Int :=
  zone.foldl applyGen gs

/-- The all-zero dense generator array. -/
def zeroGs : List Int := List.replicate genCount 0

/-- The effective dense array of one region: start from all zeros, overlay
the global-zone defaults, then overlay the zone's own records.
`Modelled from the spec:` §4.5. -/
def resolveGs (glob own : List Generator) : List Int :=
  overlay (overlay zeroGs glob) own

/-- The resolved core of a region: the dense generator array plus the
validated link index (instrument index for presets, sample index for
instruments).  `Modelled from the spec:` §3 "ResolvedRegion". -/
structure RegionCore where
  gs : List Int
  link : Nat
deriving DecidableEq, Repr

/-- Resolve one non-global zone against the global defaults.
`Modelled from the spec:` §4.5 — a zone without the linking generator is
degenerate and skipped (`none`); one whose resolved link index is out of
range is a hard error carrying the offending index via `mkErr`. -/
def mkRegionCore (gt limit : Nat) (mkErr : Nat → ParseError) (glob : List Generator)
    (z : Zone) : Except Fail (Option RegionCore) :=
  if z.gens.any (fun g => g.generator_type == gt) then
    let gs := resolveGs glob z.gens
    let link := usizeOfI16 (gs.getD gt 0)
    if link < limit then .ok (some ⟨gs, link⟩) else .error (.err (mkErr link))
  else .ok none

/-- Resolve the non-global zones of one entity in file order, skipping
degenerate zones.  `Modelled from the spec:` §4.5. -/
def buildRegions (gt limit : Nat) (mkErr : Nat → ParseError) (glob : List Generator) :
    List Zone → Except Fail (List RegionCore)
  | [] => .ok []
  | z :: zs => do
      let r? ← mkRegionCore gt limit mkErr glob z
      let rest ← buildRegions gt limit mkErr glob zs
      .ok (match r? with | some r => r :: rest | none => rest)

/-- Is the first zone a global zone?  `Modelled from the spec:` §4.5 — the
first zone is global iff it contains no generator of the linking kind. -/
def isGlobalZone (gt : Nat) (z : Zone) : Bool :=
  !(z.gens.any (fun g => g.generator_type == gt))

/-- Resolve all regions of one entity.  `Modelled from the spec:` §4.4/§4.5 —
an entity with zero zones fails with its "no zone" error (`emptyErr`); a
global first zone supplies defaults and produces no region; an entity left
with no resolvable region is rejected (spec §3 invariant). -/
def buildEntity (gt limit : Nat) (mkErr : Nat → ParseError) (emptyErr : ParseError) :
    List Zone → Except Fail (List RegionCore)
  | [] => .error (.err emptyErr)
  | z0 :: rest => do
      let rs ←
        if isGlobalZone gt z0 then buildRegions gt limit mkErr z0.gens rest
        else buildRegions gt limit mkErr [] (z0 :: rest)
      if rs.isEmpty then .error (.err emptyErr) else .ok rs

/-- Partition the flat generator list into zones from consecutive bag-table
entries.  `Modelled from the spec:` §4.4 — entries must be monotone and stay
within the generator list, else the zone list is invalid; a bag table without
even its terminal entry means no zone exists. -/
def mkZones (bag : List Nat) (gens : List Generator) : Except Fail (List Zone) :=
  match bag with
  | [] => .error (.err .ZoneNotFound)
  | [b] => if b ≤ gens.length then .ok [] else .error (.err .InvalidZoneList)
  | b1 :: b2 :: rest =>
      if b1 ≤ b2 ∧ b2 ≤ gens.length then do
        let zs ← mkZones (b2 :: rest) gens
        .ok (⟨(gens.drop b1).take (b2 - b1)⟩ :: zs)
      else .error (.err .InvalidZoneList)

/-! ## The public data model (`soundfont.rs` and the spec §3) -/

/-- `SoundFontVersion` (field shape fixed by its uses in `soundfont.rs`). -/
structure SoundFontVersion where
  major : Int
  minor : Int
deriving DecidableEq, Repr

/-- `SoundFontInfo` (field shape fixed by its uses in `soundfont.rs`). -/
structure SoundFontInfo where
  version : SoundFontVersion
  target_sound_engine : String
  bank_name : String
  rom_name : String
  rom_version : SoundFontVersion
  creation_date : String
  author : String
  target_product : String
  copyright : String
  comments : String
  tools : String
deriving DecidableEq, Repr

/-- `SampleHeader` (field shape fixed by its uses in `soundfont.rs`). -/
structure SampleHeader where
  name : String
  start : Int
  «end» : Int
  start_loop : Int
  end_loop : Int
  sample_rate : Int
  original_pitch : Nat
  pitch_correction : Int
  link : Nat
  sample_type : Nat
deriving DecidableEq, Repr

/-- `PresetRegion`: the dense generator array (`gs : [i16; 61]`) plus the
validated instrument index (field shape fixed by its uses in
`soundfont.rs`). -/
structure PresetRegion where
  gs : List Int
  instrument : Nat
deriving DecidableEq, Repr

/-- `Preset` (field shape fixed by its uses in `soundfont.rs`). -/
structure Preset where
  name : String
  patch_number : Int
  bank_number : Int
  library : Int
  genre : Int
  morphology : Int
  regions : List PresetRegion
deriving DecidableEq, Repr

/-- `InstrumentRegion`: the dense generator array plus the sample fields
resolved from the referenced `SampleHeader` (field shape fixed by its uses in
`soundfont.rs`; the referenced sample index is the `sampleID` slot of
`gs`). -/
structure InstrumentRegion where
  gs : List Int
  sample_start : Int
  sample_end : Int
  sample_start_loop : Int
  sample_end_loop : Int
  sample_sample_rate : Int
  sample_original_pitch : Int
  sample_pitch_correction : Int
deriving DecidableEq, Repr

/-- `Instrument` (field shape fixed by its uses in `soundfont.rs`). -/
structure Instrument where
  name : String
  regions : List InstrumentRegion
deriving DecidableEq, Repr

/-- `SoundFont` (`soundfont.rs`). -/
structure SoundFont where
  info : SoundFontInfo
  bits_per_sample : Int
  wave_data : List Int
  sample_headers : List SampleHeader
  presets : List Preset
  instruments : List Instrument
deriving DecidableEq, Repr

/-- The default (all-empty) info record used by the modelled info parser. -/
def emptyInfo : SoundFontInfo :=
  { version := ⟨0, 0⟩, target_sound_engine := "", bank_name := "", rom_name := ""
    rom_version := ⟨0, 0⟩, creation_date := "", author := "", target_product := ""
    copyright := "", comments := "", tools := "" }

/-! ## Modelled component parsers -/

/-- The `LIST` tag. -/
def fccLIST : FourCC := ⟨76, 73, 83, 84⟩

/-- The `RIFF` tag. -/
def fccRIFF : FourCC := ⟨82, 73, 70, 70⟩

/-- The `sfbk` form tag. -/
def fccSfbk : FourCC := ⟨115, 102, 98, 107⟩

/-- The `INFO` list tag. -/
def fccINFO : FourCC := ⟨73, 78, 70, 79⟩

/-- The `sdta` list tag. -/
def fccSdta : FourCC := ⟨115, 100, 116, 97⟩

/-- The `pdta` list tag. -/
def fccPdta : FourCC := ⟨112, 100, 116, 97⟩

/-- The `ifil` (version) sub-chunk tag. -/
def fccIfil : FourCC := ⟨105, 102, 105, 108⟩

/-- The `iver` (ROM version) sub-chunk tag. -/
def fccIver : FourCC := ⟨105, 118, 101, 114⟩

/-- The `isng` (target sound engine) sub-chunk tag. -/
def fccIsng : FourCC := ⟨105, 115, 110, 103⟩

/-- The `INAM` (bank name) sub-chunk tag. -/
def fccINAM : FourCC := ⟨73, 78, 65, 77⟩

/-- The `irom` (ROM name) sub-chunk tag. -/
def fccIrom : FourCC := ⟨105, 114, 111, 109⟩

/-- The `ICRD` (creation date) sub-chunk tag. -/
def fccICRD : FourCC := ⟨73, 67, 82, 68⟩

/-- The `IENG` (author) sub-chunk tag. -/
def fccIENG : FourCC := ⟨73, 69, 78, 71⟩

/-- The `IPRD` (target product) sub-chunk tag. -/
def fccIPRD : FourCC := ⟨73, 80, 82, 68⟩

/-- The `ICOP` (copyright) sub-chunk tag. -/
def fccICOP : FourCC := ⟨73, 67, 79, 80⟩

/-- The `ICMT` (comments) sub-chunk tag. -/
def fccICMT : FourCC := ⟨73, 67, 77, 84⟩

/-- The `ISFT` (tools) sub-chunk tag. -/
def fccISFT : FourCC := ⟨73, 83, 70, 84⟩

/-- Is `id` one of the recognized textual INFO sub-chunk IDs?  The set of
sub-chunks is fixed by the `SoundFontInfo` fields used in `soundfont.rs`;
the tags are the standard ones for those fields. -/
def isInfoTextId (id : FourCC) : Bool :=
  id == fccIsng || id == fccINAM || id == fccIrom || id == fccICRD ||
  id == fccIENG || id == fccIPRD || id == fccICOP || id == fccICMT ||
  id == fccISFT

/-- A text field decoded from raw bytes. -/
def stringOfBytes (l : List Nat) : String :=
  String.mk (l.map fun b => Char.ofNat (b % 256))

/-- Store a decoded version sub-chunk: `ifil` sets the bank version, `iver`
the ROM version. -/
def setInfoVersion (acc : SoundFontInfo) (id : FourCC) (major minor : Nat) :
    SoundFontInfo :=
  if id = fccIfil then { acc with version := ⟨i16val major, i16val minor⟩ }
  else { acc with rom_version := ⟨i16val major, i16val minor⟩ }

/-- Store a decoded textual sub-chunk in its field. -/
def setInfoText (acc : SoundFontInfo) (id : FourCC) (payload : List Nat) :
    SoundFontInfo :=
  let t := stringOfBytes payload
  if id = fccIsng then { acc with target_sound_engine := t }
  else if id = fccINAM then { acc with bank_name := t }
  else if id = fccIrom then { acc with rom_name := t }
  else if id = fccICRD then { acc with creation_date := t }
  else if id = fccIENG then { acc with author := t }
  else if id = fccIPRD then { acc with target_product := t }
  else if id = fccICOP then { acc with copyright := t }
  else if id = fccICMT then { acc with comments := t }
  else { acc with tools := t }

/-- The INFO sub-chunk loop.  `Modelled from the spec:` §4.2 — while declared
bytes remain, read a sub-chunk ID and its declared byte size; a version
sub-chunk (`ifil`/`iver`) holds two 16-bit fields, a recognized textual
sub-chunk holds its declared bytes, and an unrecognized sub-chunk ID is a
hard error (`ListContainsUnknownId`).  `remaining` is the count of declared
bytes left; every iteration accounts for at least the 8 header bytes, so the
iteration count is bounded by the declared size: `fuel` (the declared size at
the entry point) drives the structural recursion and cannot run out before
`remaining` does. -/
def readInfoSubchunks : Nat → Nat → Stream → SoundFontInfo →
    Except Fail (SoundFontInfo × Stream)
  | _, 0, s, acc => .ok (acc, s)
  | 0, _ + 1, _, _ => .error (.err .SanityCheckFailed)
  | fuel + 1, remaining + 1, s, acc => do
      let (id, s) ← readFourCC s
      let (ssize, s) ← readU32 s
      if id = fccIfil ∨ id = fccIver then do
        let (major, s) ← readU16 s
        let (minor, s) ← readU16 s
        readInfoSubchunks fuel (remaining + 1 - (8 + ssize)) s
          (setInfoVersion acc id major minor)
      else if isInfoTextId id then do
        let (payload, s) ← readBytes ssize s
        readInfoSubchunks fuel (remaining + 1 - (8 + ssize)) s
          (setInfoText acc id payload)
      else .error (.err (.ListContainsUnknownId id))

/-- `SoundFontInfo::new`.  `Modelled from the spec:` `soundfont_info.rs` is
not in the tree.  Per §4.2/§2 the info block is a `LIST` container with form
tag `INFO` whose sub-chunks span the declared size; a wrong container tag is
`ListChunkNotFound`, a wrong form tag is `InvalidListChunkType` with expected
and actual tags, and the sub-chunks are then decoded by `readInfoSubchunks`
(an unknown sub-chunk ID is a hard error). -/
def SoundFontInfo.new (s : Stream) : Except Fail (SoundFontInfo × Stream) := do
  let (chunkId, s) ← readFourCC s
  if chunkId ≠ fccLIST then .error (.err .ListChunkNotFound) else do
  let (size, s) ← readU32 s
  let (listType, s) ← readFourCC s
  if listType ≠ fccINFO then
    .error (.err (.InvalidListChunkType fccINFO listType))
  else
  readInfoSubchunks size (size - 4) s emptyInfo

/-- The decoded sample-data block. -/
structure SoundFontSampleData where
  wave_data : List Int
deriving DecidableEq, Repr

/-- Turn pairs of bytes into little-endian `i16` samples. -/
def samplesOfBytes : List Nat → List Int
  | a :: b :: rest => i16val (a % 256 + 256 * (b % 256)) :: samplesOfBytes rest
  | _ => []

/-- `SoundFontSampleData::new`.  `Modelled from the spec:`
`soundfont_sampledata.rs` is not in the tree.  Per §4.7/§2 the sample block is
a `LIST` container with form tag `sdta`; it validates the declared sample
encoding and rejects anything but 16-bit linear PCM with
`UnsupportedSampleFormat` before reading any waveform data; the waveform is
then decoded as little-endian 16-bit samples.  The encoding declaration is
modelled as a 16-bit bits-per-sample field, followed by a 16-bit sample count
and the waveform bytes. -/
def SoundFontSampleData.new (s : Stream) :
    Except Fail (SoundFontSampleData × Stream) := do
  let (chunkId, s) ← readFourCC s
  if chunkId ≠ fccLIST then .error (.err .ListChunkNotFound) else do
  let (_size, s) ← readU32 s
  let (listType, s) ← readFourCC s
  if listType ≠ fccSdta then
    .error (.err (.InvalidListChunkType fccSdta listType))
  else do
  let (bitsPerSample, s) ← readU16 s
  if bitsPerSample ≠ 16 then .error (.err .UnsupportedSampleFormat) else do
  let (sampleCount, s) ← readU16 s
  let (waveBytes, s) ← readBytes (2 * sampleCount) s
  .ok (⟨samplesOfBytes waveBytes⟩, s)

/-- One preset header record (`phdr`): patch, bank, bag index and the three
classification ints.  `Modelled from the spec:` §3 "Preset". -/
structure PresetHeader where
  patch : Nat
  bank : Nat
  bagIdx : Nat
  library : Nat
  genre : Nat
  morphology : Nat
deriving DecidableEq, Repr

/-- Read one `phdr` record (six 16-bit fields in the modelled layout). -/
def readPresetHeader (s : Stream) : Except Fail (PresetHeader × Stream) := do
  let (patch, s) ← readU16 s
  let (bank, s) ← readU16 s
  let (bagIdx, s) ← readU16 s
  let (library, s) ← readU16 s
  let (genre, s) ← readU16 s
  let (morphology, s) ← readU16 s
  .ok (⟨patch, bank, bagIdx, library, genre, morphology⟩, s)

/-- Read `n` `phdr` records. -/
def readPresetHeaders (n : Nat) (s : Stream) :
    Except Fail (List PresetHeader × Stream) :=
  match n with
  | 0 => .ok ([], s)
  | k + 1 => do
      let (r, s) ← readPresetHeader s
      let (rs, s) ← readPresetHeaders k s
      .ok (r :: rs, s)

/-- Read `n` 16-bit bag-table entries. -/
def readBagTable (n : Nat) (s : Stream) : Except Fail (List Nat × Stream) :=
  match n with
  | 0 => .ok ([], s)
  | k + 1 => do
      let (b, s) ← readU16 s
      let (bs, s) ← readBagTable k s
      .ok (b :: bs, s)

/-- Read one `shdr` record (nine 16-bit fields in the modelled layout). -/
def readSampleHeader (s : Stream) : Except Fail (SampleHeader × Stream) := do
  let (start, s) ← readU16 s
  let (end_, s) ← readU16 s
  let (startLoop, s) ← readU16 s
  let (endLoop, s) ← readU16 s
  let (rate, s) ← readU16 s
  let (origPitch, s) ← readU16 s
  let (pitchCorr, s) ← readU16 s
  let (link, s) ← readU16 s
  let (sampleType, s) ← readU16 s
  .ok ({ name := "", start := start, «end» := end_, start_loop := startLoop
         end_loop := endLoop, sample_rate := rate, original_pitch := origPitch
         pitch_correction := i16val pitchCorr, link := link
         sample_type := sampleType }, s)

/-- Read `n` `shdr` records. -/
def readSampleHeaders (n : Nat) (s : Stream) :
    Except Fail (List SampleHeader × Stream) :=
  match n with
  | 0 => .ok ([], s)
  | k + 1 => do
      let (r, s) ← readSampleHeader s
      let (rs, s) ← readSampleHeaders k s
      .ok (r :: rs, s)

/-- The placeholder header used by `List.getD` (never reached on validated
indices). -/
def defaultHeader : SampleHeader :=
  ⟨"", 0, 0, 0, 0, 0, 0, 0, 0, 0⟩

/-- Turn a resolved region core into an `InstrumentRegion` by combining it
with the referenced `SampleHeader`.  `Modelled from the spec:` §3
"ResolvedRegion" — the sample fields are derived from the referenced
header. -/
def instRegionOf (headers : List SampleHeader) (c : RegionCore) : InstrumentRegion :=
  let h := headers.getD c.link defaultHeader
  { gs := c.gs, sample_start := h.start, sample_end := h.«end»
    sample_start_loop := h.start_loop, sample_end_loop := h.end_loop
    sample_sample_rate := h.sample_rate
    sample_original_pitch := (h.original_pitch : Int)
    sample_pitch_correction := h.pitch_correction }

/-- Build the resolved instruments from the `inst` bag indices (with terminal
record), the instrument zones and the sample headers.  `Modelled from
the spec:` §4.4–§4.6 — per entity `i` the zones are
`[bagIdx[i], bagIdx[i+1])`; non-monotone or out-of-range indices are
`InvalidInstrumentList`; an entity without a resolvable region is
`InvalidInstrument i`; an out-of-range `sampleID` is `InvalidSampleId` with
the entity position and the bad index. -/
def buildInstruments (headers : List SampleHeader) (zones : List Zone) (i : Nat) :
    List Nat → Except Fail (List Instrument)
  | [] => .ok []
  | [_] => .ok []
  | b1 :: b2 :: rest =>
      if b1 ≤ b2 ∧ b2 ≤ zones.length then do
        let cores ← buildEntity genSampleID headers.length
          (fun id => .InvalidSampleId i id) (.InvalidInstrument i)
          ((zones.drop b1).take (b2 - b1))
        let tail ← buildInstruments headers zones (i + 1) (b2 :: rest)
        .ok (⟨"", cores.map (instRegionOf headers)⟩ :: tail)
      else .error (.err .InvalidInstrumentList)

/-- Build the resolved presets from the `phdr` records (with terminal
record), the preset zones and the instrument count.  `Modelled from the
spec:` §4.4–§4.6 — per entity `i` the zones are `[bagIdx[i], bagIdx[i+1])`;
non-monotone or out-of-range indices are `InvalidPresetList`; an entity
without a resolvable region is `InvalidPreset i`; an out-of-range
`instrument` is `InvalidInstrumentId` with the entity position and the bad
index. -/
def buildPresets (instCount : Nat) (zones : List Zone) (i : Nat) :
    List PresetHeader → Except Fail (List Preset)
  | [] => .ok []
  | [_] => .ok []
  | r1 :: r2 :: rest =>
      if r1.bagIdx ≤ r2.bagIdx ∧ r2.bagIdx ≤ zones.length then do
        let cores ← buildEntity genInstrument instCount
          (fun id => .InvalidInstrumentId i id) (.InvalidPreset i)
          ((zones.drop r1.bagIdx).take (r2.bagIdx - r1.bagIdx))
        let tail ← buildPresets instCount zones (i + 1) (r2 :: rest)
        .ok ({ name := "", patch_number := (r1.patch : Int)
               bank_number := (r1.bank : Int), library := (r1.library : Int)
               genre := (r1.genre : Int), morphology := (r1.morphology : Int)
               regions := cores.map (fun c => ⟨c.gs, c.link⟩) } :: tail)
      else .error (.err .InvalidPresetList)

/-- The decoded parameter block. -/
structure SoundFontParameters where
  sample_headers : List SampleHeader
  presets : List Preset
  instruments : List Instrument
deriving DecidableEq, Repr

/-- `SoundFontParameters::new`.  `Modelled from the spec:`
`soundfont_parameters.rs` is not in the tree.  Per §2/§4.4–§4.6 the
parameter block is a `LIST` container with form tag `pdta` holding, in order,
the preset headers, the preset bag table, the preset generator list (decoded
by `Generator::read_from_chunk` of `generator.rs`), the instrument bag
indices, the instrument bag table, the instrument generator list, and the
sample headers; the resolution engine then builds instruments (validated
against the sample headers) and presets (validated against the instruments).
Counted tables are modelled with a leading 16-bit record count (the record
counts include the terminal records); generator sub-chunks carry their
declared byte size.  Absence of any entity is the matching "not found"
error. -/
def SoundFontParameters.new (s : Stream) :
    Except Fail (SoundFontParameters × Stream) := do
  let (chunkId, s) ← readFourCC s
  if chunkId ≠ fccLIST then .error (.err .ListChunkNotFound) else do
  let (_size, s) ← readU32 s
  let (listType, s) ← readFourCC s
  if listType ≠ fccPdta then
    .error (.err (.InvalidListChunkType fccPdta listType))
  else do
  let (nPhdr, s) ← readU16 s
  let (phdr, s) ← readPresetHeaders nPhdr s
  let (nPbag, s) ← readU16 s
  let (pbag, s) ← readBagTable nPbag s
  let (pgenSize, s) ← readU32 s
  let (pgens, s) ← Generator.read_from_chunk s pgenSize
  let (nInst, s) ← readU16 s
  let (instBags, s) ← readBagTable nInst s
  let (nIbag, s) ← readU16 s
  let (ibag, s) ← readBagTable nIbag s
  let (igenSize, s) ← readU32 s
  let (igens, s) ← Generator.read_from_chunk s igenSize
  let (nShdr, s) ← readU16 s
  let (sampleHeaders, s) ← readSampleHeaders nShdr s
  let presetZones ← mkZones pbag pgens
  let instZones ← mkZones ibag igens
  let instruments ← buildInstruments sampleHeaders instZones 0 instBags
  if instruments.isEmpty then .error (.err .InstrumentNotFound) else do
  let presets ← buildPresets instruments.length presetZones 0 phdr
  if presets.isEmpty then .error (.err .PresetNotFound) else
  .ok (⟨sampleHeaders, presets, instruments⟩, s)

/-! ## `SoundFont::new` (`soundfont.rs`) -/

/-- The prefix of `SoundFont::new` up to and including the info block: the
`RIFF` tag check (mismatch is `RiffChunkNotFound`), the discarded size read
(`soundfont.rs:39` binds the `Result` to `_size` without `?`), the form-type
check (mismatch is `InvalidRiffChunkType` with expected and actual tags), and
`SoundFontInfo::new`. -/
def sfPrefix (s : Stream) : Except Fail (SoundFontInfo × Stream) := do
  let (chunkId, s) ← readFourCC s
  if chunkId ≠ fccRIFF then .error (.err .RiffChunkNotFound) else do
  let s := readU32Discard s
  let (formType, s) ← readFourCC s
  if formType ≠ fccSfbk then
    .error (.err (.InvalidRiffChunkType fccSfbk formType))
  else
  SoundFontInfo.new s

/-- `SoundFont::new`: the container traversal of `soundfont.rs` —
tag checks and info block (`sfPrefix`), sample data, parameter block, then
the assembled `SoundFont` with `bits_per_sample = 16`. -/
def SoundFont.new (s : Stream) : Except Fail SoundFont := do
  let (info, s) ← sfPrefix s
  let (sampleData, s) ← SoundFontSampleData.new s
  let (parameters, _) ← SoundFontParameters.new s
  .ok { info := info, bits_per_sample := 16, wave_data := sampleData.wave_data
        sample_headers := parameters.sample_headers
        presets := parameters.presets
        instruments := parameters.instruments }

/-! ## Helper lemmas -/

/-- Destructure a successful `Except` bind. -/
theorem exBind_ok {α β : Type} {e : Except Fail α} {k : α → Except Fail β} {v : β}
    (h : (e >>= k) = .ok v) : ∃ a, e = .ok a ∧ k a = .ok v := by
  cases e with
  | ok a => exact ⟨a, rfl, by simpa [Bind.bind, Except.bind] using h⟩
  | error f => simp [Bind.bind, Except.bind] at h

/-- Destructure a failing `Except` bind. -/
theorem exBind_err {α β : Type} {e : Except Fail α} {k : α → Except Fail β} {f : Fail}
    (h : (e >>= k) = .error f) :
    e = .error f ∨ ∃ a, e = .ok a ∧ k a = .error f := by
  cases e with
  | ok a => exact .inr ⟨a, rfl, by simpa [Bind.bind, Except.bind] using h⟩
  | error f' => left; simpa [Bind.bind, Except.bind] using h

/-! ## Byte encodings of generator records, for stating stream-level claims -/

/-- The four bytes of one generator record as they occur in the stream. -/
structure GenBytes where
  a : Nat
  b : Nat
  c : Nat
  d : Nat
deriving DecidableEq, Repr

/-- The generator record decoded from four bytes (two little-endian
`u16`s). -/
def genOf (q : GenBytes) : Generator :=
  ⟨q.a % 256 + 256 * (q.b % 256), q.c % 256 + 256 * (q.d % 256)⟩

/-- The reader responses produced by a buffer of generator records: each
record is served by two 2-byte `read_exact` calls (the two `read_u16`s of
`Generator::new`). -/
def streamOfQuads : List GenBytes → Stream
  | [] => []
  | q :: qs => some [q.a, q.b] :: some [q.c, q.d] :: streamOfQuads qs

theorem generator_new_quad (q : GenBytes) (qs : List GenBytes) (rest : Stream) :
    Generator.new (streamOfQuads (q :: qs) ++ rest) =
      .ok (genOf q, streamOfQuads qs ++ rest) := rfl

theorem readGenerators_quads (k : Nat) :
    ∀ (qs : List GenBytes) (rest : Stream), k ≤ qs.length →
      readGenerators k (streamOfQuads qs ++ rest) =
        .ok ((qs.take k).map genOf, streamOfQuads (qs.drop k) ++ rest) := by
  induction k with
  | zero => intro qs rest _; simp [readGenerators]
  | succ k ih =>
      intro qs rest h
      cases qs with
      | nil => simp at h
      | cons q qs =>
          have h' : k ≤ qs.length := by simpa using h
          have hnew := generator_new_quad q qs rest
          simp [readGenerators, hnew, Bind.bind, Except.bind, ih qs rest h']

/-! ## C3 -/

/-- C3: for every chunk size that is a positive multiple of 4 (`4 * (k + 1)`)
and every stream supplying enough bytes (here: any reader whose responses
serve `k + 1` generator records, followed by anything), `read_from_chunk`
returns exactly `size / 4 - 1 = k` generator records, decoded in stream
order, and consumes but does not store the final terminator record (the
remaining stream is exactly `rest`). -/
theorem generator_chunk_decode_count_order (k : Nat) (qs : List GenBytes)
    (rest : Stream) (hlen : qs.length = k + 1) :
    Generator.read_from_chunk (streamOfQuads qs ++ rest) (4 * (k + 1)) =
      .ok (qs.dropLast.map genOf, rest) ∧
    qs.dropLast.length = 4 * (k + 1) / 4 - 1 := by
  have h4 : 4 * (k + 1) % 4 = 0 := by omega
  have hq : 4 * (k + 1) / 4 = k + 1 := by omega
  have hk : k ≤ qs.length := by omega
  have hdrop : ∃ q, qs.drop k = [q] := by
    have : (qs.drop k).length = 1 := by simp [hlen]
    exact List.length_eq_one.mp this
  obtain ⟨q, hdq⟩ := hdrop
  have htake : qs.take k = qs.dropLast := by
    simp [List.dropLast_eq_take, hlen]
  constructor
  · unfold Generator.read_from_chunk
    rw [if_neg (by omega), if_neg (by omega),
      show 4 * (k + 1) / 4 - 1 = k by omega]
    have hread := readGenerators_quads k qs rest hk
    rw [hdq] at hread
    have hterm := generator_new_quad q [] rest
    rw [← htake]
    simp only [streamOfQuads, List.nil_append] at hterm hread ⊢
    simp only [List.cons_append, List.nil_append] at hterm
    rw [hread]
    simp only [Bind.bind, Except.bind, List.cons_append, List.nil_append, hterm]
  · simp [List.length_dropLast, hlen, hq]

/-- Witness for C3: a two-record chunk (`size = 8`) yields exactly the one
non-terminator record. -/
theorem generator_chunk_decode_count_order_witness :
    Generator.read_from_chunk
        (streamOfQuads [⟨41, 0, 2, 0⟩, ⟨0, 0, 0, 0⟩] ++ []) (4 * (1 + 1)) =
      .ok (([⟨41, 2⟩] : List Generator), ([] : Stream)) :=
  (generator_chunk_decode_count_order 1 [⟨41, 0, 2, 0⟩, ⟨0, 0, 0, 0⟩] []
    (by decide)).1

/-! ## C4 -/

/-- C4: for every chunk size that is not a multiple of 4,
`Generator::read_from_chunk` fails with `InvalidGeneratorList`, for every
stream — the result does not depend on the stream at all, so no bytes are
read, and the result is an `Err`, not a panic. -/
theorem generator_chunk_size_not_multiple_of_four (size : Nat)
    (h : size % 4 ≠ 0) (s : Stream) :
    Generator.read_from_chunk s size = .error (.err .InvalidGeneratorList) := by
  simp [Generator.read_from_chunk, h]

/-- Witness for C4 at `size = 5` on the empty stream. -/
theorem generator_chunk_size_not_multiple_of_four_witness :
    Generator.read_from_chunk [] 5 = .error (.err .InvalidGeneratorList) :=
  generator_chunk_size_not_multiple_of_four 5 (by decide) []

/-! ## C10 -/

/-- C10: `Generator::read_from_chunk` is not total — at `size = 0` the
multiple-of-4 check passes (`0 % 4 = 0`), and the source then computes
`size / 4 - 1`, which underflows `usize`: a debug build panics (a release
build wraps to `2^64 - 1` and attempts that many 4-byte reads), so the
function does not return `Ok` or `Err` at this input. -/
theorem generator_chunk_size_zero_panics :
    Generator.read_from_chunk [] 0 = .error .panic ∧ (0 : Nat) % 4 = 0 :=
  ⟨rfl, rfl⟩

/-! ## Container-traversal lemmas (`soundfont.rs`) -/

theorem sfNew_riff_mismatch (rb : List Nat) (rest : Stream) (hr : rb.length = 4)
    (hne : fourCCOfBytes rb ≠ fccRIFF) :
    SoundFont.new (some rb :: rest) = .error (.err .RiffChunkNotFound) := by
  simp [SoundFont.new, sfPrefix, readFourCC, readBytes, readExact, hr, hne,
    Bind.bind, Except.bind]

theorem sfNew_form_mismatch (rb ft : List Nat) (x : ReadResp) (rest : Stream)
    (hr : rb.length = 4) (hR : fourCCOfBytes rb = fccRIFF) (hf : ft.length = 4)
    (hft : fourCCOfBytes ft ≠ fccSfbk) :
    SoundFont.new (some rb :: x :: some ft :: rest) =
      .error (.err (.InvalidRiffChunkType fccSfbk (fourCCOfBytes ft))) := by
  cases x <;>
    simp [SoundFont.new, sfPrefix, readFourCC, readBytes, readExact,
      readU32Discard, hr, hR, hf, hft, Bind.bind, Except.bind]

/-! ## C5 -/

/-- C5: for every input stream whose first four bytes are `RIFF` and whose
form-type tag (the four bytes following the 4-byte size) is not `sfbk`,
`SoundFont::new` fails with `InvalidRiffChunkType` carrying both the expected
tag `sfbk` and the actual tag read. -/
theorem form_type_mismatch_reports_expected_actual (rb sz ft : List Nat)
    (rest : Stream) (hr : rb.length = 4) (hR : fourCCOfBytes rb = fccRIFF)
    (_hs : sz.length = 4) (hf : ft.length = 4)
    (hft : fourCCOfBytes ft ≠ fccSfbk) :
    SoundFont.new (some rb :: some sz :: some ft :: rest) =
      .error (.err (.InvalidRiffChunkType fccSfbk (fourCCOfBytes ft))) :=
  sfNew_form_mismatch rb ft (some sz) rest hr hR hf hft

/-- Witness for C5: `RIFF` followed by a form tag `xxxx`. -/
theorem form_type_mismatch_reports_expected_actual_witness :
    SoundFont.new
        [some [82, 73, 70, 70], some [0, 0, 0, 0], some [120, 120, 120, 120]] =
      .error (.err (.InvalidRiffChunkType fccSfbk ⟨120, 120, 120, 120⟩)) :=
  form_type_mismatch_reports_expected_actual [82, 73, 70, 70] [0, 0, 0, 0]
    [120, 120, 120, 120] [] (by decide) (by decide) (by decide) (by decide)
    (by decide)

/-! ## C6 -/

/-- Does a `ParseError` carry both an expected and an actual tag (the
"wrong chunk type" errors of `error.rs`)? -/
def carriesExpectedActual : ParseError → Bool
  | .InvalidRiffChunkType _ _ => true
  | .InvalidListChunkType _ _ => true
  | _ => false

/-- Counterexample to C6 as stated: at the top-level `RIFF` tag check, a
mismatch fails with `RiffChunkNotFound` (`soundfont.rs:36`), an error that
carries neither the expected nor the actual tag. -/
theorem riff_mismatch_error_carries_no_tags :
    SoundFont.new [some [88, 88, 88, 88]] = .error (.err .RiffChunkNotFound) ∧
    carriesExpectedActual .RiffChunkNotFound = false :=
  ⟨rfl, rfl⟩

theorem infoNew_list_mismatch (tb : List Nat) (rest : Stream)
    (h4 : tb.length = 4) (hne : fourCCOfBytes tb ≠ fccLIST) :
    SoundFontInfo.new (some tb :: rest) = .error (.err .ListChunkNotFound) := by
  simp [SoundFontInfo.new, readFourCC, readBytes, readExact, h4, hne,
    Bind.bind, Except.bind]

theorem infoNew_type_mismatch (tb sz lt : List Nat) (rest : Stream)
    (h4 : tb.length = 4) (hL : fourCCOfBytes tb = fccLIST) (hs : sz.length = 4)
    (hl : lt.length = 4) (hne : fourCCOfBytes lt ≠ fccINFO) :
    SoundFontInfo.new (some tb :: some sz :: some lt :: rest) =
      .error (.err (.InvalidListChunkType fccINFO (fourCCOfBytes lt))) := by
  simp [SoundFontInfo.new, readFourCC, readU32, readBytes, readExact, h4, hL,
    hs, hl, hne, Bind.bind, Except.bind]

theorem sampleDataNew_list_mismatch (tb : List Nat) (rest : Stream)
    (h4 : tb.length = 4) (hne : fourCCOfBytes tb ≠ fccLIST) :
    SoundFontSampleData.new (some tb :: rest) =
      .error (.err .ListChunkNotFound) := by
  simp [SoundFontSampleData.new, readFourCC, readBytes, readExact, h4, hne,
    Bind.bind, Except.bind]

theorem sampleDataNew_type_mismatch (tb sz lt : List Nat) (rest : Stream)
    (h4 : tb.length = 4) (hL : fourCCOfBytes tb = fccLIST) (hs : sz.length = 4)
    (hl : lt.length = 4) (hne : fourCCOfBytes lt ≠ fccSdta) :
    SoundFontSampleData.new (some tb :: some sz :: some lt :: rest) =
      .error (.err (.InvalidListChunkType fccSdta (fourCCOfBytes lt))) := by
  simp [SoundFontSampleData.new, readFourCC, readU32, readBytes, readExact,
    h4, hL, hs, hl, hne, Bind.bind, Except.bind]

theorem parametersNew_list_mismatch (tb : List Nat) (rest : Stream)
    (h4 : tb.length = 4) (hne : fourCCOfBytes tb ≠ fccLIST) :
    SoundFontParameters.new (some tb :: rest) =
      .error (.err .ListChunkNotFound) := by
  simp [SoundFontParameters.new, readFourCC, readBytes, readExact, h4, hne,
    Bind.bind, Except.bind]

theorem parametersNew_type_mismatch (tb sz lt : List Nat) (rest : Stream)
    (h4 : tb.length = 4) (hL : fourCCOfBytes tb = fccLIST) (hs : sz.length = 4)
    (hl : lt.length = 4) (hne : fourCCOfBytes lt ≠ fccPdta) :
    SoundFontParameters.new (some tb :: some sz :: some lt :: rest) =
      .error (.err (.InvalidListChunkType fccPdta (fourCCOfBytes lt))) := by
  simp [SoundFontParameters.new, readFourCC, readU32, readBytes, readExact,
    h4, hL, hs, hl, hne, Bind.bind, Except.bind]

/-- C6 (amended): every structural tag check during container traversal fails
on mismatch with a wrong-chunk-type error; the form-type check and the three
list-type checks (`INFO`, `sdta`, `pdta`) carry both the expected and the
actual tag, but the top-level `RIFF` check fails with `RiffChunkNotFound` and
the three `LIST` container checks fail with `ListChunkNotFound`, which carry
neither. -/
theorem structural_tag_mismatch_errors (rb lt sz : List Nat) (x : ReadResp)
    (hr : rb.length = 4) (hl : lt.length = 4) (hs : sz.length = 4) :
    (fourCCOfBytes rb ≠ fccRIFF →
      ∀ rest, SoundFont.new (some rb :: rest) =
        .error (.err .RiffChunkNotFound)) ∧
    (fourCCOfBytes rb = fccRIFF → fourCCOfBytes lt ≠ fccSfbk →
      ∀ rest, SoundFont.new (some rb :: x :: some lt :: rest) =
        .error (.err (.InvalidRiffChunkType fccSfbk (fourCCOfBytes lt)))) ∧
    (fourCCOfBytes rb ≠ fccLIST →
      ∀ rest,
        SoundFontInfo.new (some rb :: rest) =
          .error (.err .ListChunkNotFound) ∧
        SoundFontSampleData.new (some rb :: rest) =
          .error (.err .ListChunkNotFound) ∧
        SoundFontParameters.new (some rb :: rest) =
          .error (.err .ListChunkNotFound)) ∧
    (fourCCOfBytes rb = fccLIST →
      ∀ rest,
        (fourCCOfBytes lt ≠ fccINFO →
          SoundFontInfo.new (some rb :: some sz :: some lt :: rest) =
            .error (.err (.InvalidListChunkType fccINFO (fourCCOfBytes lt)))) ∧
        (fourCCOfBytes lt ≠ fccSdta →
          SoundFontSampleData.new (some rb :: some sz :: some lt :: rest) =
            .error (.err (.InvalidListChunkType fccSdta (fourCCOfBytes lt)))) ∧
        (fourCCOfBytes lt ≠ fccPdta →
          SoundFontParameters.new (some rb :: some sz :: some lt :: rest) =
            .error (.err (.InvalidListChunkType fccPdta (fourCCOfBytes lt))))) ∧
    (carriesExpectedActual .RiffChunkNotFound = false ∧
     carriesExpectedActual .ListChunkNotFound = false ∧
     ∀ e a, carriesExpectedActual (.InvalidRiffChunkType e a) = true ∧
            carriesExpectedActual (.InvalidListChunkType e a) = true) := by
  refine ⟨?_, ?_, ?_, ?_, rfl, rfl, fun e a => ⟨rfl, rfl⟩⟩
  · intro hne rest
    exact sfNew_riff_mismatch rb rest hr hne
  · intro hR hft rest
    exact sfNew_form_mismatch rb lt x rest hr hR hl hft
  · intro hne rest
    exact ⟨infoNew_list_mismatch rb rest hr hne,
      sampleDataNew_list_mismatch rb rest hr hne,
      parametersNew_list_mismatch rb rest hr hne⟩
  · intro hL rest
    exact ⟨fun hne => infoNew_type_mismatch rb sz lt rest hr hL hs hl hne,
      fun hne => sampleDataNew_type_mismatch rb sz lt rest hr hL hs hl hne,
      fun hne => parametersNew_type_mismatch rb sz lt rest hr hL hs hl hne⟩

/-- Witness for the amended C6: each kind of structural check at a concrete
mismatched tag. -/
theorem structural_tag_mismatch_errors_witness :
    SoundFont.new [some [88, 88, 88, 88]] = .error (.err .RiffChunkNotFound) ∧
    SoundFont.new
        [some [82, 73, 70, 70], some [0, 0, 0, 0], some [120, 120, 120, 120]] =
      .error (.err (.InvalidRiffChunkType fccSfbk ⟨120, 120, 120, 120⟩)) ∧
    SoundFontInfo.new [some [88, 88, 88, 88]] =
      .error (.err .ListChunkNotFound) ∧
    SoundFontSampleData.new [some [88, 88, 88, 88]] =
      .error (.err .ListChunkNotFound) ∧
    SoundFontParameters.new [some [88, 88, 88, 88]] =
      .error (.err .ListChunkNotFound) ∧
    SoundFontInfo.new
        [some [76, 73, 83, 84], some [0, 0, 0, 0], some [120, 120, 120, 120]] =
      .error (.err (.InvalidListChunkType fccINFO ⟨120, 120, 120, 120⟩)) ∧
    SoundFontSampleData.new
        [some [76, 73, 83, 84], some [0, 0, 0, 0], some [120, 120, 120, 120]] =
      .error (.err (.InvalidListChunkType fccSdta ⟨120, 120, 120, 120⟩)) ∧
    SoundFontParameters.new
        [some [76, 73, 83, 84], some [0, 0, 0, 0], some [120, 120, 120, 120]] =
      .error (.err (.InvalidListChunkType fccPdta ⟨120, 120, 120, 120⟩)) := by
  have hx := structural_tag_mismatch_errors [88, 88, 88, 88]
    [120, 120, 120, 120] [0, 0, 0, 0] (some [0, 0, 0, 0])
    (by decide) (by decide) (by decide)
  have hriff := structural_tag_mismatch_errors [82, 73, 70, 70]
    [120, 120, 120, 120] [0, 0, 0, 0] (some [0, 0, 0, 0])
    (by decide) (by decide) (by decide)
  have hlist := structural_tag_mismatch_errors [76, 73, 83, 84]
    [120, 120, 120, 120] [0, 0, 0, 0] (some [0, 0, 0, 0])
    (by decide) (by decide) (by decide)
  have h3 := hx.2.2.1 (by decide) []
  have h4 := hlist.2.2.2.1 (by decide) []
  exact ⟨hx.1 (by decide) [], hriff.2.1 (by decide) (by decide) [],
    h3.1, h3.2.1, h3.2.2, h4.1 (by decide), h4.2.1 (by decide),
    h4.2.2 (by decide)⟩

/-! ## Demo streams -/

/-- A 2-byte little-endian read response. -/
def u16r (v : Nat) : ReadResp := some [v % 256, v / 256 % 256]

/-- A 4-byte little-endian read response. -/
def u32r (v : Nat) : ReadResp :=
  some [v % 256, v / 256 % 256, v / 65536 % 256, v / 16777216 % 256]

/-- A minimal valid bank: one preset (bank 0, patch 0) with one zone holding
an `instrument 0` generator, one instrument with one zone holding a
`sampleID 0` generator, one sample header, one 16-bit sample. -/
def demoStream : Stream :=
  [ some [82, 73, 70, 70], u32r 0, some [115, 102, 98, 107],
    some [76, 73, 83, 84], u32r 16, some [73, 78, 70, 79],
    some [105, 102, 105, 108], u32r 4, u16r 2, u16r 1,
    some [76, 73, 83, 84], u32r 0, some [115, 100, 116, 97], u16r 16, u16r 1,
    some [0, 1],
    some [76, 73, 83, 84], u32r 0, some [112, 100, 116, 97],
    u16r 2,
    u16r 0, u16r 0, u16r 0, u16r 0, u16r 0, u16r 0,
    u16r 0, u16r 0, u16r 1, u16r 0, u16r 0, u16r 0,
    u16r 2, u16r 0, u16r 1,
    u32r 8, u16r 41, u16r 0, u16r 0, u16r 0,
    u16r 2, u16r 0, u16r 1,
    u16r 2, u16r 0, u16r 1,
    u32r 8, u16r 53, u16r 0, u16r 0, u16r 0,
    u16r 1,
    u16r 0, u16r 1, u16r 0, u16r 1, u16r 44100, u16r 60, u16r 0, u16r 0,
    u16r 1 ]

/-- The info record decoded from `demoStream` (one `ifil` sub-chunk with
version 2.1). -/
def demoInfo : SoundFontInfo := { emptyInfo with version := ⟨2, 1⟩ }

/-- The sample header decoded from `demoStream`. -/
def demoHeader : SampleHeader :=
  { name := "", start := 0, «end» := 1, start_loop := 0, end_loop := 1
    sample_rate := 44100, original_pitch := 60, pitch_correction := 0
    link := 0, sample_type := 1 }

/-- The bank decoded from `demoStream`. -/
def demoSF : SoundFont :=
  { info := demoInfo, bits_per_sample := 16, wave_data := [256]
    sample_headers := [demoHeader]
    presets := [{ name := "", patch_number := 0, bank_number := 0, library := 0
                  genre := 0, morphology := 0
                  regions := [⟨zeroGs, 0⟩] }]
    instruments := [⟨"", [{ gs := zeroGs, sample_start := 0, sample_end := 1
                            sample_start_loop := 0, sample_end_loop := 1
                            sample_sample_rate := 44100
                            sample_original_pitch := 60
                            sample_pitch_correction := 0 }]⟩] }

theorem getD_set_self (l : List Int) (n : Nat) (a d : Int) (h : n < l.length) :
    (l.set n a).getD n d = a := by
  simp [List.getD, List.getElem?_set, h]

theorem getD_set_ne (l : List Int) (n m : Nat) (a d : Int) (h : n ≠ m) :
    (l.set n a).getD m d = l.getD m d := by
  simp [List.getD, List.getElem?_set, h]

/-- The value of the LAST generator record of type `t` in a record list, in
file order — the claim's "last record in file order wins". -/
def lastVal (t : Nat) : List Generator → Option Nat
  | [] => none
  | g :: rest =>
      match lastVal t rest with
      | some v => some v
      | none => if g.generator_type == t then some g.value else none

theorem length_applyGen (gs : List Int) (g : Generator) :
    (applyGen gs g).length = gs.length := by
  unfold applyGen; split <;> simp

theorem length_overlay (zone : List Generator) :
    ∀ gs : List Int, (overlay gs zone).length = gs.length := by
  induction zone with
  | nil => intro gs; rfl
  | cons g z ih =>
      intro gs
      show (overlay (applyGen gs g) z).length = gs.length
      rw [ih, length_applyGen]

/-- The effective slot value after overlaying a zone: the zone's last record
of that type wins; a slot the zone never writes keeps its previous value. -/
theorem overlay_getD (zone : List Generator) :
    ∀ (gs : List Int) (t : Nat), gs.length = genCount → t < genCount →
      (overlay gs zone).getD t 0 =
        (match lastVal t zone with
         | some v => i16val v
         | none => gs.getD t 0) := by
  induction zone with
  | nil => intro gs t _ _; rfl
  | cons g z ih =>
      intro gs t hlen ht
      show (overlay (applyGen gs g) z).getD t 0 = _
      rw [ih (applyGen gs g) t (by rw [length_applyGen, hlen]) ht]
      show (match lastVal t z with
            | some v => i16val v
            | none => (applyGen gs g).getD t 0) = _
      cases hl : lastVal t z with
      | some v => simp [lastVal, hl]
      | none =>
          simp only [lastVal, hl]
          unfold applyGen
          by_cases hgt : g.generator_type = t
          · subst hgt
            rw [if_pos (by omega)]
            rw [getD_set_self gs g.generator_type (i16val g.value) 0 (by omega)]
            simp
          · simp only [beq_iff_eq, hgt, if_false]
            split
            · exact getD_set_ne gs _ t _ 0 hgt
            · rfl

/-- The effective slot value of a resolved region: the zone's own last
record wins, else the global zone's last record, else zero. -/
theorem resolveGs_getD (glob own : List Generator) (t : Nat) (ht : t < genCount) :
    (resolveGs glob own).getD t 0 =
      (match lastVal t own with
       | some v => i16val v
       | none =>
           match lastVal t glob with
           | some v => i16val v
           | none => 0) := by
  unfold resolveGs
  have h1 : (overlay zeroGs glob).length = genCount := by
    rw [length_overlay]; simp [zeroGs]
  rw [overlay_getD own _ t h1 ht]
  cases lastVal t own with
  | some v => rfl
  | none =>
      rw [overlay_getD glob zeroGs t (by simp [zeroGs]) ht]
      cases lastVal t glob with
      | some v => rfl
      | none => simp [zeroGs, List.getD, List.getElem?_replicate, ht]

/-- A region produced from a zone of the list appears in the resolved
output. -/
theorem mem_buildRegions (gt limit : Nat) (mkErr : Nat → ParseError)
    (glob : List Generator) :
    ∀ (zs : List Zone) (out : List RegionCore) (z : Zone) (r : RegionCore),
      buildRegions gt limit mkErr glob zs = .ok out → z ∈ zs →
      mkRegionCore gt limit mkErr glob z = .ok (some r) → r ∈ out := by
  intro zs
  induction zs with
  | nil => intro out z r _ hz; simp at hz
  | cons z0 zs ih =>
      intro out z r hok hz hr
      unfold buildRegions at hok
      obtain ⟨r?, hr0, hok⟩ := exBind_ok hok
      obtain ⟨rest, hrest, hok⟩ := exBind_ok hok
      have hout : out = (match r? with | some r' => r' :: rest | none => rest) := by
        cases r? <;> simpa [Pure.pure, Except.pure] using hok.symm
      rcases List.mem_cons.mp hz with hz0 | hzz
      · subst hz0
        rw [hr0] at hr
        have : r? = some r := by injection hr
        subst this
        simp [hout]
      · have hmem := ih rest z r hrest hzz hr
        cases r? <;> simp [hout, hmem]

/-! ## C1 -/

/-- C1: for every entity (preset or instrument, via the generic linking
generator type `gt`) whose first zone is a global zone, and for every region
resolved from one of the remaining zones: a generator type absent from the
region's own zone but present in the global zone gets the global zone's
(last) value; a type present in the zone itself gets the zone's own last
value — in particular a type present in both zones gets the non-global
zone's value, and within one zone the last record in file order wins
(`lastVal` is the last matching record). -/
theorem global_zone_cascade_override (gt limit : Nat) (mkErr : Nat → ParseError)
    (emptyErr : ParseError) (z0 z : Zone) (rest : List Zone)
    (regions : List RegionCore) (r : RegionCore)
    (hglob : isGlobalZone gt z0 = true)
    (hok : buildEntity gt limit mkErr emptyErr (z0 :: rest) = .ok regions)
    (hz : z ∈ rest)
    (hr : mkRegionCore gt limit mkErr z0.gens z = .ok (some r)) :
    r ∈ regions ∧
    ∀ t, t < genCount →
      ((lastVal t z.gens = none → ∀ v, lastVal t z0.gens = some v →
          r.gs.getD t 0 = i16val v) ∧
       (∀ v, lastVal t z.gens = some v → r.gs.getD t 0 = i16val v)) := by
  have hgs : r.gs = resolveGs z0.gens z.gens := by
    simp only [mkRegionCore] at hr
    split at hr
    · split at hr
      · injection hr with h1
        injection h1 with h2
        cases h2; rfl
      · exact Except.noConfusion hr
    · injection hr with h1
      exact Option.noConfusion h1
  have hbr : buildRegions gt limit mkErr z0.gens rest = .ok regions := by
    simp only [buildEntity] at hok
    rw [if_pos hglob] at hok
    obtain ⟨rs, hrs, hok⟩ := exBind_ok hok
    split at hok
    · exact Except.noConfusion hok
    · injection hok with h1
      rw [← h1]; exact hrs
  refine ⟨mem_buildRegions gt limit mkErr z0.gens rest regions z r hbr hz hr, ?_⟩
  intro t ht
  rw [hgs, resolveGs_getD z0.gens z.gens t ht]
  constructor
  · intro hnone v hsome
    rw [hnone, hsome]
  · intro v hsome
    rw [hsome]

/-- A global zone for the C1 witness: no `instrument` (type 41) generator;
sets slot 0 to 5 and slot 7 to 4. -/
def globalZoneW : Zone := ⟨[⟨0, 5⟩, ⟨7, 4⟩]⟩

/-- A regular zone for the C1 witness: links to instrument 0, writes slot 7
twice (3 then 9 — the last must win). -/
def ownZoneW : Zone := ⟨[⟨41, 0⟩, ⟨7, 3⟩, ⟨7, 9⟩]⟩

/-- The region resolved from `ownZoneW` under `globalZoneW`. -/
def regionW : RegionCore := ⟨resolveGs globalZoneW.gens ownZoneW.gens, 0⟩

/-- Witness for C1: slot 0 (absent from the own zone, present in the global
zone) holds the global value 5; slot 7 (present in both, and twice in the
own zone) holds the own zone's last value 9. -/
theorem global_zone_cascade_override_witness :
    regionW ∈ [regionW] ∧ regionW.gs.getD 0 0 = i16val 5 ∧
    regionW.gs.getD 7 0 = i16val 9 := by
  have h := global_zone_cascade_override 41 1
    (fun id => .InvalidInstrumentId 0 id) (.InvalidPreset 0)
    globalZoneW ownZoneW [ownZoneW] [regionW] regionW
    (by decide) rfl (by decide) rfl
  exact ⟨h.1, (h.2 0 (by decide)).1 (by decide) 5 (by decide),
    (h.2 7 (by decide)).2 9 (by decide)⟩

/-! ## Bounds invariants through the pipeline (C2) -/

/-- Every region emitted by `buildRegions` has an in-range link index, and
the link index is the resolved value of the linking generator slot. -/
theorem buildRegions_ok_bounds (gt limit : Nat) (mkErr : Nat → ParseError)
    (glob : List Generator) :
    ∀ (zs : List Zone) (out : List RegionCore),
      buildRegions gt limit mkErr glob zs = .ok out →
      ∀ r ∈ out, r.link < limit ∧ usizeOfI16 (r.gs.getD gt 0) = r.link := by
  intro zs
  induction zs with
  | nil =>
      intro out h r hr
      simp only [buildRegions] at h
      injection h with h1
      rw [← h1] at hr
      simp at hr
  | cons z zs ih =>
      intro out h r hr
      simp only [buildRegions] at h
      obtain ⟨r?, h1, h⟩ := exBind_ok h
      obtain ⟨rest, h2, h⟩ := exBind_ok h
      have hout : (match r? with | some r' => r' :: rest | none => rest) = out := by
        cases r? <;> simpa using h
      cases r? with
      | none =>
          rw [← hout] at hr
          exact ih rest h2 r hr
      | some r0 =>
          rw [← hout] at hr
          rcases List.mem_cons.mp hr with rfl | hr'
          · simp only [mkRegionCore] at h1
            split at h1
            · split at h1
              · rename_i hlt
                injection h1 with hh
                injection hh with hh2
                cases hh2
                exact ⟨hlt, rfl⟩
              · exact Except.noConfusion h1
            · injection h1 with hh
              exact Option.noConfusion hh
          · exact ih rest h2 r hr'

/-- Every region emitted by `buildEntity` has an in-range link index. -/
theorem buildEntity_ok_bounds (gt limit : Nat) (mkErr : Nat → ParseError)
    (emptyErr : ParseError) (zs : List Zone) (out : List RegionCore)
    (h : buildEntity gt limit mkErr emptyErr zs = .ok out) :
    ∀ r ∈ out, r.link < limit ∧ usizeOfI16 (r.gs.getD gt 0) = r.link := by
  cases zs with
  | nil => exact absurd h (by simp [buildEntity])
  | cons z0 rest =>
      simp only [buildEntity] at h
      split at h
      · obtain ⟨rs, h1, h⟩ := exBind_ok h
        have hrs : rs = out := by
          split at h
          · exact Except.noConfusion h
          · injection h
        rw [hrs] at h1
        exact buildRegions_ok_bounds gt limit mkErr z0.gens rest out h1
      · obtain ⟨rs, h1, h⟩ := exBind_ok h
        have hrs : rs = out := by
          split at h
          · exact Except.noConfusion h
          · injection h
        rw [hrs] at h1
        exact buildRegions_ok_bounds gt limit mkErr [] (z0 :: rest) out h1

/-- Every instrument region emitted by `buildInstruments` references a
sample index within the header list. -/
theorem buildInstruments_ok_bounds (headers : List SampleHeader)
    (zones : List Zone) :
    ∀ (bags : List Nat) (i : Nat) (out : List Instrument),
      buildInstruments headers zones i bags = .ok out →
      ∀ inst ∈ out, ∀ r ∈ inst.regions,
        usizeOfI16 (r.gs.getD genSampleID 0) < headers.length := by
  intro bags
  induction bags with
  | nil =>
      intro i out h inst hmem
      simp only [buildInstruments] at h
      injection h with h1
      rw [← h1] at hmem
      simp at hmem
  | cons b1 bs ih =>
      cases bs with
      | nil =>
          intro i out h inst hmem
          simp only [buildInstruments] at h
          injection h with h1
          rw [← h1] at hmem
          simp at hmem
      | cons b2 rest =>
          intro i out h inst hmem r hr
          simp only [buildInstruments] at h
          split at h
          · obtain ⟨cores, h1, h⟩ := exBind_ok h
            obtain ⟨tail, h2, h⟩ := exBind_ok h
            injection h with hh
            rw [← hh] at hmem
            rcases List.mem_cons.mp hmem with rfl | hmem'
            · obtain ⟨c, hc, rfl⟩ := List.mem_map.mp hr
              have hb := buildEntity_ok_bounds genSampleID headers.length
                (fun id => .InvalidSampleId i id) (.InvalidInstrument i) _ cores h1 c hc
              show usizeOfI16 ((instRegionOf headers c).gs.getD genSampleID 0)
                < headers.length
              have hceq : (instRegionOf headers c).gs = c.gs := rfl
              rw [hceq, hb.2]
              exact hb.1
            · exact ih (i + 1) tail h2 inst hmem' r hr
          · exact Except.noConfusion h

/-- Every preset region emitted by `buildPresets` references an instrument
index below the instrument count. -/
theorem buildPresets_ok_bounds (instCount : Nat) (zones : List Zone) :
    ∀ (phdr : List PresetHeader) (i : Nat) (out : List Preset),
      buildPresets instCount zones i phdr = .ok out →
      ∀ p ∈ out, ∀ r ∈ p.regions, r.instrument < instCount := by
  intro phdr
  induction phdr with
  | nil =>
      intro i out h p hmem
      simp only [buildPresets] at h
      injection h with h1
      rw [← h1] at hmem
      simp at hmem
  | cons r1 rs ih =>
      cases rs with
      | nil =>
          intro i out h p hmem
          simp only [buildPresets] at h
          injection h with h1
          rw [← h1] at hmem
          simp at hmem
      | cons r2 rest =>
          intro i out h p hmem r hr
          simp only [buildPresets] at h
          split at h
          · obtain ⟨cores, h1, h⟩ := exBind_ok h
            obtain ⟨tail, h2, h⟩ := exBind_ok h
            injection h with hh
            rw [← hh] at hmem
            rcases List.mem_cons.mp hmem with rfl | hmem'
            · obtain ⟨c, hc, rfl⟩ := List.mem_map.mp hr
              have hb := buildEntity_ok_bounds genInstrument instCount
                (fun id => .InvalidInstrumentId i id) (.InvalidPreset i) _ cores h1 c hc
              exact hb.1
            · exact ih (i + 1) tail h2 p hmem' r hr
          · exact Except.noConfusion h

/-- The parameter block only emits presets and instruments whose regions
reference in-range instruments and samples. -/
theorem soundFontParameters_ok_bounds (s : Stream) (params : SoundFontParameters)
    (sFinal : Stream) (h : SoundFontParameters.new s = .ok (params, sFinal)) :
    (∀ p ∈ params.presets, ∀ r ∈ p.regions,
      r.instrument < params.instruments.length) ∧
    (∀ inst ∈ params.instruments, ∀ r ∈ inst.regions,
      usizeOfI16 (r.gs.getD genSampleID 0) < params.sample_headers.length) := by
  simp only [SoundFontParameters.new] at h
  obtain ⟨⟨chunkId, s1⟩, h1, h⟩ := exBind_ok h
  split at h
  · exact absurd h (by simp)
  obtain ⟨⟨size, s2⟩, h2, h⟩ := exBind_ok h
  obtain ⟨⟨listType, s3⟩, h3, h⟩ := exBind_ok h
  split at h
  · exact absurd h (by simp)
  obtain ⟨⟨nPhdr, s4⟩, h4, h⟩ := exBind_ok h
  obtain ⟨⟨phdr, s5⟩, h5, h⟩ := exBind_ok h
  obtain ⟨⟨nPbag, s6⟩, h6, h⟩ := exBind_ok h
  obtain ⟨⟨pbag, s7⟩, h7, h⟩ := exBind_ok h
  obtain ⟨⟨pgenSize, s8⟩, h8, h⟩ := exBind_ok h
  obtain ⟨⟨pgens, s9⟩, h9, h⟩ := exBind_ok h
  obtain ⟨⟨nInst, s10⟩, h10, h⟩ := exBind_ok h
  obtain ⟨⟨instBags, s11⟩, h11, h⟩ := exBind_ok h
  obtain ⟨⟨nIbag, s12⟩, h12, h⟩ := exBind_ok h
  obtain ⟨⟨ibag, s13⟩, h13, h⟩ := exBind_ok h
  obtain ⟨⟨igenSize, s14⟩, h14, h⟩ := exBind_ok h
  obtain ⟨⟨igens, s15⟩, h15, h⟩ := exBind_ok h
  obtain ⟨⟨nShdr, s16⟩, h16, h⟩ := exBind_ok h
  obtain ⟨⟨sampleHeaders, s17⟩, h17, h⟩ := exBind_ok h
  obtain ⟨presetZones, h18, h⟩ := exBind_ok h
  obtain ⟨instZones, h19, h⟩ := exBind_ok h
  obtain ⟨instruments, h20, h⟩ := exBind_ok h
  split at h
  · exact absurd h (by simp)
  obtain ⟨presets, h21, h⟩ := exBind_ok h
  split at h
  · exact absurd h (by simp)
  injection h with hh
  injection hh with hA hB
  cases hA
  constructor
  · exact buildPresets_ok_bounds instruments.length presetZones phdr 0 presets h21
  · exact buildInstruments_ok_bounds sampleHeaders instZones instBags 0
      instruments h20

/-- Region-resolution failures are exactly out-of-range link indices, and
the error is built by `mkErr` from the offending index. -/
theorem buildRegions_error_shape (gt limit : Nat) (mkErr : Nat → ParseError)
    (glob : List Generator) :
    ∀ (zs : List Zone) (f : Fail),
      buildRegions gt limit mkErr glob zs = .error f →
      ∃ id, limit ≤ id ∧ f = .err (mkErr id) := by
  intro zs
  induction zs with
  | nil => intro f h; exact Except.noConfusion h
  | cons z zs ih =>
      intro f h
      simp only [buildRegions] at h
      rcases exBind_err h with h1 | ⟨r?, h1, h⟩
      · simp only [mkRegionCore] at h1
        split at h1
        · split at h1
          · exact Except.noConfusion h1
          · rename_i hnotlt
            injection h1 with hh
            exact ⟨_, Nat.le_of_not_lt hnotlt, hh.symm⟩
        · exact Except.noConfusion h1
      · rcases exBind_err h with h2 | ⟨rest, h2, h⟩
        · exact ih f h2
        · exact Except.noConfusion h

/-! ## C2 -/

/-- C2: every `SoundFont` returned successfully by `SoundFont::new` has only
in-bounds cross-references — every preset region's `instrument` index is
below the instrument count, and every instrument region's resolved `sampleID`
slot is below the sample-header count; and during resolution, the only
failure `buildRegions` can produce is an out-of-range link index, reported
with the referencing entity's position `i` and the invalid index (via
`InvalidInstrumentId i id` for presets, `InvalidSampleId i id` for
instruments). -/
theorem resolved_region_links_in_bounds :
    (∀ (s : Stream) (sf : SoundFont), SoundFont.new s = .ok sf →
      (∀ p ∈ sf.presets, ∀ r ∈ p.regions,
        r.instrument < sf.instruments.length) ∧
      (∀ inst ∈ sf.instruments, ∀ r ∈ inst.regions,
        usizeOfI16 (r.gs.getD genSampleID 0) < sf.sample_headers.length)) ∧
    (∀ (i limit : Nat) (glob : List Generator) (zs : List Zone) (f : Fail),
      buildRegions genInstrument limit
        (fun id => .InvalidInstrumentId i id) glob zs = .error f →
      ∃ id, limit ≤ id ∧ f = .err (.InvalidInstrumentId i id)) ∧
    (∀ (i limit : Nat) (glob : List Generator) (zs : List Zone) (f : Fail),
      buildRegions genSampleID limit
        (fun id => .InvalidSampleId i id) glob zs = .error f →
      ∃ id, limit ≤ id ∧ f = .err (.InvalidSampleId i id)) := by
  refine ⟨?_, ?_, ?_⟩
  · intro s sf h
    simp only [SoundFont.new] at h
    obtain ⟨⟨info, s1⟩, h1, h⟩ := exBind_ok h
    obtain ⟨⟨sampleData, s2⟩, h2, h⟩ := exBind_ok h
    obtain ⟨⟨params, s3⟩, h3, h⟩ := exBind_ok h
    have hb := soundFontParameters_ok_bounds s2 params s3 h3
    injection h with hh
    rw [← hh]
    exact hb
  · intro i limit glob zs f h
    exact buildRegions_error_shape genInstrument limit _ glob zs f h
  · intro i limit glob zs f h
    exact buildRegions_error_shape genSampleID limit _ glob zs f h

/-- Witness for C2: the demo bank's single preset region links to
instrument 0 of 1, and a resolution with `limit = 0` fails with
`InvalidInstrumentId` carrying position and index. -/
theorem resolved_region_links_in_bounds_witness :
    (⟨zeroGs, 0⟩ : PresetRegion).instrument < demoSF.instruments.length ∧
    buildRegions genInstrument 0 (fun id => ParseError.InvalidInstrumentId 5 id)
      [] [⟨[⟨41, 0⟩]⟩] = .error (.err (.InvalidInstrumentId 5 0)) := by
  have h := resolved_region_links_in_bounds
  constructor
  · refine (h.1 demoStream demoSF rfl).1 ?_ ?_ ⟨zeroGs, 0⟩ ?_
    · exact demoSF.presets.head (by simp [demoSF])
    · simp [demoSF]
    · simp [demoSF]
  · rfl

/-! ## Prefix-extension and error-shape lemmas for the reader

A successful parse consumes a prefix of the reader's responses, so appending
further responses does not change it; and the primitive reads can only fail
with an I/O error. -/

theorem readExact_extend (n : Nat) (s r : Stream) (bs : List Nat) (s' : Stream)
    (h : readExact n s = (.ok bs, s')) :
    readExact n (s ++ r) = (.ok bs, s' ++ r) := by
  by_cases hn : n = 0
  · subst hn
    simp only [readExact, if_pos rfl] at h ⊢
    injection h with h1 h2
    injection h1 with h1'
    subst h1'
    subst h2
    rfl
  · cases s with
    | nil =>
        simp only [readExact, if_neg hn] at h
        injection h with h1 _
        exact Except.noConfusion h1
    | cons c rest =>
        cases c with
        | none =>
            simp only [readExact, if_neg hn] at h
            injection h with h1 _
            exact Except.noConfusion h1
        | some bs0 =>
            simp only [readExact, if_neg hn, List.cons_append] at h ⊢
            by_cases hl : bs0.length = n
            · rw [if_pos hl] at h ⊢
              injection h with h1 h2
              injection h1 with h1'
              subst h1'
              subst h2
              rfl
            · rw [if_neg hl] at h
              injection h with h1 _
              exact Except.noConfusion h1

theorem readExact_error_shape (n : Nat) (s : Stream) (f : Fail)
    (h : (readExact n s).1 = .error f) : f = .err .IoError := by
  by_cases hn : n = 0
  · subst hn; simp [readExact] at h
  · cases s with
    | nil =>
        simp only [readExact, if_neg hn] at h
        injection h with h1
        exact h1.symm
    | cons c rest =>
        cases c with
        | none =>
            simp only [readExact, if_neg hn] at h
            injection h with h1
            exact h1.symm
        | some bs0 =>
            simp only [readExact, if_neg hn] at h
            by_cases hl : bs0.length = n
            · rw [if_pos hl] at h
              exact Except.noConfusion h
            · rw [if_neg hl] at h
              injection h with h1
              exact h1.symm

theorem readBytes_extend (n : Nat) (s r : Stream) (bs : List Nat) (s' : Stream)
    (h : readBytes n s = .ok (bs, s')) :
    readBytes n (s ++ r) = .ok (bs, s' ++ r) := by
  unfold readBytes at h ⊢
  cases hx : readExact n s with
  | mk res rest =>
      rw [hx] at h
      cases res with
      | ok v =>
          injection h with h1
          injection h1 with hA hB
          subst hA; subst hB
          rw [readExact_extend n s r v rest hx]
      | error f => exact Except.noConfusion h

theorem readBytes_error_shape (n : Nat) (s : Stream) (f : Fail)
    (h : readBytes n s = .error f) : f = .err .IoError := by
  unfold readBytes at h
  cases hx : readExact n s with
  | mk res rest =>
      rw [hx] at h
      cases res with
      | ok v => exact Except.noConfusion h
      | error f2 =>
          have hf : f2 = f := by injection h
          rw [← hf]
          exact readExact_error_shape n s f2 (by rw [hx])

theorem readFourCC_extend (s r : Stream) (v : FourCC) (s' : Stream)
    (h : readFourCC s = .ok (v, s')) :
    readFourCC (s ++ r) = .ok (v, s' ++ r) := by
  unfold readFourCC at h ⊢
  cases hx : readBytes 4 s with
  | ok p =>
      rw [hx] at h
      injection h with h1
      injection h1 with hA hB
      subst hA; subst hB
      rw [readBytes_extend 4 s r p.1 p.2 (by rw [hx])]
  | error f =>
      rw [hx] at h
      exact Except.noConfusion h

theorem readFourCC_error_shape (s : Stream) (f : Fail)
    (h : readFourCC s = .error f) : f = .err .IoError := by
  unfold readFourCC at h
  cases hx : readBytes 4 s with
  | ok p => rw [hx] at h; exact Except.noConfusion h
  | error f2 =>
      rw [hx] at h
      have hf : f2 = f := by injection h
      rw [← hf]
      exact readBytes_error_shape 4 s f2 hx

theorem readU16_extend (s r : Stream) (v : Nat) (s' : Stream)
    (h : readU16 s = .ok (v, s')) :
    readU16 (s ++ r) = .ok (v, s' ++ r) := by
  unfold readU16 at h ⊢
  cases hx : readBytes 2 s with
  | ok p =>
      rw [hx] at h
      injection h with h1
      injection h1 with hA hB
      subst hA; subst hB
      rw [readBytes_extend 2 s r p.1 p.2 (by rw [hx])]
  | error f =>
      rw [hx] at h
      exact Except.noConfusion h

theorem readU16_error_shape (s : Stream) (f : Fail)
    (h : readU16 s = .error f) : f = .err .IoError := by
  unfold readU16 at h
  cases hx : readBytes 2 s with
  | ok p => rw [hx] at h; exact Except.noConfusion h
  | error f2 =>
      rw [hx] at h
      have hf : f2 = f := by injection h
      rw [← hf]
      exact readBytes_error_shape 2 s f2 hx

theorem readU32_extend (s r : Stream) (v : Nat) (s' : Stream)
    (h : readU32 s = .ok (v, s')) :
    readU32 (s ++ r) = .ok (v, s' ++ r) := by
  unfold readU32 at h ⊢
  cases hx : readBytes 4 s with
  | ok p =>
      rw [hx] at h
      injection h with h1
      injection h1 with hA hB
      subst hA; subst hB
      rw [readBytes_extend 4 s r p.1 p.2 (by rw [hx])]
  | error f =>
      rw [hx] at h
      exact Except.noConfusion h

theorem readU32_error_shape (s : Stream) (f : Fail)
    (h : readU32 s = .error f) : f = .err .IoError := by
  unfold readU32 at h
  cases hx : readBytes 4 s with
  | ok p => rw [hx] at h; exact Except.noConfusion h
  | error f2 =>
      rw [hx] at h
      have hf : f2 = f := by injection h
      rw [← hf]
      exact readBytes_error_shape 4 s f2 hx

theorem readU32Discard_extend (c : ReadResp) (rest r : Stream) :
    readU32Discard ((c :: rest) ++ r) = readU32Discard (c :: rest) ++ r := by
  cases c <;> rfl

theorem readInfoSubchunks_extend :
    ∀ (fuel remaining : Nat) (s r : Stream) (acc v : SoundFontInfo)
      (s' : Stream),
      readInfoSubchunks fuel remaining s acc = .ok (v, s') →
      readInfoSubchunks fuel remaining (s ++ r) acc = .ok (v, s' ++ r) := by
  intro fuel
  induction fuel with
  | zero =>
      intro remaining s r acc v s' h
      cases remaining with
      | zero =>
          simp only [readInfoSubchunks] at h ⊢
          injection h with hh
          injection hh with hA hB
          subst hA
          subst hB
          rfl
      | succ n =>
          simp only [readInfoSubchunks] at h
          exact Except.noConfusion h
  | succ fuel ih =>
      intro remaining s r acc v s' h
      cases remaining with
      | zero =>
          simp only [readInfoSubchunks] at h ⊢
          injection h with hh
          injection hh with hA hB
          subst hA
          subst hB
          rfl
      | succ n =>
          simp only [readInfoSubchunks] at h ⊢
          obtain ⟨⟨id, s1⟩, h1, h⟩ := exBind_ok h
          rw [readFourCC_extend s r id s1 h1]
          simp only [Bind.bind, Except.bind]
          obtain ⟨⟨ssize, s2⟩, h2, h⟩ := exBind_ok h
          rw [readU32_extend s1 r ssize s2 h2]
          simp only [Bind.bind, Except.bind]
          split at h
          · rename_i hid
            rw [if_pos hid]
            obtain ⟨⟨major, s3⟩, h3, h⟩ := exBind_ok h
            rw [readU16_extend s2 r major s3 h3]
            simp only [Bind.bind, Except.bind]
            obtain ⟨⟨minor, s4⟩, h4, h⟩ := exBind_ok h
            rw [readU16_extend s3 r minor s4 h4]
            simp only [Bind.bind, Except.bind]
            exact ih _ s4 r _ v s' h
          · split at h
            · rename_i hid1 hid2
              rw [if_neg hid1, if_pos hid2]
              obtain ⟨⟨payload, s3⟩, h3, h⟩ := exBind_ok h
              rw [readBytes_extend ssize s2 r payload s3 h3]
              simp only [Bind.bind, Except.bind]
              exact ih _ s3 r _ v s' h
            · exact Except.noConfusion h

theorem soundFontInfo_new_extend (s r : Stream) (v : SoundFontInfo) (s' : Stream)
    (h : SoundFontInfo.new s = .ok (v, s')) :
    SoundFontInfo.new (s ++ r) = .ok (v, s' ++ r) := by
  simp only [SoundFontInfo.new] at h ⊢
  obtain ⟨⟨chunkId, s1⟩, h1, h⟩ := exBind_ok h
  rw [readFourCC_extend s r chunkId s1 h1]
  simp only [Bind.bind, Except.bind]
  split at h
  · exact Except.noConfusion h
  · rename_i hc
    rw [if_neg hc]
    obtain ⟨⟨size, s2⟩, h2, h⟩ := exBind_ok h
    rw [readU32_extend s1 r size s2 h2]
    simp only [Bind.bind, Except.bind]
    obtain ⟨⟨listType, s3⟩, h3, h⟩ := exBind_ok h
    rw [readFourCC_extend s2 r listType s3 h3]
    simp only [Bind.bind, Except.bind]
    split at h
    · exact Except.noConfusion h
    · rename_i hc2
      rw [if_neg hc2]
      exact readInfoSubchunks_extend size (size - 4) s3 r emptyInfo v s' h

theorem sfPrefix_extend (s r : Stream) (v : SoundFontInfo) (s' : Stream)
    (h : sfPrefix s = .ok (v, s')) :
    sfPrefix (s ++ r) = .ok (v, s' ++ r) := by
  simp only [sfPrefix] at h ⊢
  obtain ⟨⟨chunkId, s1⟩, h1, h⟩ := exBind_ok h
  rw [readFourCC_extend s r chunkId s1 h1]
  simp only [Bind.bind, Except.bind]
  split at h
  · exact Except.noConfusion h
  · rename_i hc
    rw [if_neg hc]
    cases s1 with
    | nil =>
        simp [readU32Discard, readExact, readFourCC, readBytes,
          Bind.bind, Except.bind] at h
    | cons c rest =>
        rw [readU32Discard_extend c rest r]
        obtain ⟨⟨formType, s2⟩, h2, h⟩ := exBind_ok h
        rw [readFourCC_extend _ r formType s2 h2]
        simp only [Bind.bind, Except.bind]
        split at h
        · exact Except.noConfusion h
        · rename_i hc2
          rw [if_neg hc2]
          exact soundFontInfo_new_extend _ r v s' h

/-- When the sample block rejects the declared encoding, the rejection does
not depend on anything after the encoding declaration: appending further
responses yields the same `UnsupportedSampleFormat` failure. -/
theorem sampleData_usf_stable (s : Stream)
    (h : SoundFontSampleData.new s = .error (.err .UnsupportedSampleFormat))
    (r : Stream) :
    SoundFontSampleData.new (s ++ r) =
      .error (.err .UnsupportedSampleFormat) := by
  simp only [SoundFontSampleData.new] at h ⊢
  rcases exBind_err h with h1 | ⟨⟨chunkId, s1⟩, h1, h⟩
  · exact absurd (readFourCC_error_shape s _ h1) (by decide)
  rw [readFourCC_extend s r chunkId s1 h1]
  simp only [Bind.bind, Except.bind]
  split at h
  · injection h with hh
    injection hh with hh2
    exact ParseError.noConfusion hh2
  · rename_i hc
    rw [if_neg hc]
    rcases exBind_err h with h2 | ⟨⟨size, s2⟩, h2, h⟩
    · exact absurd (readU32_error_shape s1 _ h2) (by decide)
    rw [readU32_extend s1 r size s2 h2]
    simp only [Bind.bind, Except.bind]
    rcases exBind_err h with h3 | ⟨⟨listType, s3⟩, h3, h⟩
    · exact absurd (readFourCC_error_shape s2 _ h3) (by decide)
    rw [readFourCC_extend s2 r listType s3 h3]
    simp only [Bind.bind, Except.bind]
    split at h
    · injection h with hh
      injection hh with hh2
      exact ParseError.noConfusion hh2
    · rename_i hc2
      rw [if_neg hc2]
      rcases exBind_err h with h4 | ⟨⟨bits, s4⟩, h4, h⟩
      · exact absurd (readU16_error_shape s3 _ h4) (by decide)
      rw [readU16_extend s3 r bits s4 h4]
      simp only [Bind.bind, Except.bind]
      split at h
      · rename_i hb
        rw [if_pos hb]
      · rename_i hb
        rw [if_neg hb]
        rcases exBind_err h with h5 | ⟨⟨cnt, s5⟩, h5, h⟩
        · exact absurd (readU16_error_shape s4 _ h5) (by decide)
        rcases exBind_err h with h6 | ⟨⟨wb, s6⟩, h6, h⟩
        · exact absurd (readBytes_error_shape _ s5 _ h6) (by decide)
        · exact Except.noConfusion h

/-! ## C7 -/

/-- C7: for every stream whose container prefix (tags and info block)
parses and whose sample-data block declares a non-16-bit encoding,
`SoundFont::new` fails with `UnsupportedSampleFormat` — and the parameter
block is never read: the result is the same for EVERY continuation `r` of
the stream, so `SoundFontParameters::new` is never invoked on any of its
bytes. -/
theorem unsupported_sample_format_stops_decode (s s1 : Stream)
    (info : SoundFontInfo) (hpre : sfPrefix s = .ok (info, s1))
    (hbad : SoundFontSampleData.new s1 =
      .error (.err .UnsupportedSampleFormat)) :
    ∀ r, SoundFont.new (s ++ r) = .error (.err .UnsupportedSampleFormat) := by
  intro r
  simp only [SoundFont.new]
  rw [sfPrefix_extend s r info s1 hpre]
  simp only [Bind.bind, Except.bind]
  rw [sampleData_usf_stable s1 hbad r]

/-- The container prefix of a stream whose sample block declares 8 bits per
sample. -/
def badSdtaStream : Stream :=
  [ some [82, 73, 70, 70], u32r 0, some [115, 102, 98, 107],
    some [76, 73, 83, 84], u32r 16, some [73, 78, 70, 79],
    some [105, 102, 105, 108], u32r 4, u16r 2, u16r 1,
    some [76, 73, 83, 84], u32r 0, some [115, 100, 116, 97], u16r 8 ]

/-- Witness for C7: the 8-bit declaration aborts the decode whatever
follows. -/
theorem unsupported_sample_format_stops_decode_witness :
    SoundFont.new (badSdtaStream ++ [some [1, 2]]) =
      .error (.err .UnsupportedSampleFormat) :=
  unsupported_sample_format_stops_decode badSdtaStream
    [some [76, 73, 83, 84], u32r 0, some [115, 100, 116, 97], u16r 8]
    demoInfo rfl rfl [some [1, 2]]

/-! ## The export module (`soundfont.rs`, `mod export`)

The export structures of `soundfont.rs` mirror the crate's public types
field-for-field (their `SoundFontInfo`/`SampleHeader` duplicates are
identical to the crate's); the mirrors with `gs` as a growable vector get
their own types here, and the field-for-field copies are embedded as
explicit copy functions, exactly as the source rebuilds them. -/

/-- `export::PresetRegion`: `gs` is a `Vec<i16>`. -/
structure EPresetRegion where
  gs : List Int
  instrument : Nat
deriving DecidableEq, Repr

/-- `export::Preset`. -/
structure EPreset where
  name : String
  patch_number : Int
  bank_number : Int
  library : Int
  genre : Int
  morphology : Int
  regions : List EPresetRegion
deriving DecidableEq, Repr

/-- `export::InstrumentRegion`: `gs` is a `Vec<i16>`. -/
structure EInstrumentRegion where
  gs : List Int
  sample_start : Int
  sample_end : Int
  sample_start_loop : Int
  sample_end_loop : Int
  sample_sample_rate : Int
  sample_original_pitch : Int
  sample_pitch_correction : Int
deriving DecidableEq, Repr

/-- `export::Instrument`. -/
structure EInstrument where
  name : String
  regions : List EInstrumentRegion
deriving DecidableEq, Repr

/-- `export::ExportedPreset`. -/
structure ExportedPreset where
  info : SoundFontInfo
  bits_per_sample : Int
  wave_data : List Int
  preset : EPreset
  sample_headers : List SampleHeader
  instruments : List EInstrument
  regions : List EPresetRegion
deriving DecidableEq, Repr

/-- The field-for-field info rebuild performed by both `export_preset` and
`from_exported_preset`. -/
def copyInfo (i : SoundFontInfo) : SoundFontInfo :=
  { version := ⟨i.version.major, i.version.minor⟩
    target_sound_engine := i.target_sound_engine
    bank_name := i.bank_name
    rom_name := i.rom_name
    rom_version := ⟨i.rom_version.major, i.rom_version.minor⟩
    creation_date := i.creation_date
    author := i.author
    target_product := i.target_product
    copyright := i.copyright
    comments := i.comments
    tools := i.tools }

/-- The field-for-field sample-header rebuild performed by both directions. -/
def copyHeader (s : SampleHeader) : SampleHeader :=
  { name := s.name, start := s.start, «end» := s.«end»
    start_loop := s.start_loop, end_loop := s.end_loop
    sample_rate := s.sample_rate, original_pitch := s.original_pitch
    pitch_correction := s.pitch_correction, link := s.link
    sample_type := s.sample_type }

/-- `r.gs.into_iter().collect()` plus the `instrument` copy. -/
def toEPresetRegion (r : PresetRegion) : EPresetRegion := ⟨r.gs, r.instrument⟩

/-- The instrument-region export copy. -/
def toEInstrumentRegion (r : InstrumentRegion) : EInstrumentRegion :=
  ⟨r.gs, r.sample_start, r.sample_end, r.sample_start_loop, r.sample_end_loop,
   r.sample_sample_rate, r.sample_original_pitch, r.sample_pitch_correction⟩

/-- `SoundFont::export_preset` (`soundfont.rs`): find the preset by bank and
patch, then snapshot the info, wave data, that preset (twice: inside
`preset` and as the top-level `regions` list), ALL instruments, and ALL
sample headers. -/
def SoundFont.export_preset (sf : SoundFont) (bank patch : Int) :
    Option ExportedPreset :=
  match sf.presets.find?
      (fun p => p.bank_number == bank && p.patch_number == patch) with
  | none => none
  | some preset => some
      { info := copyInfo sf.info
        bits_per_sample := sf.bits_per_sample
        wave_data := sf.wave_data
        preset := { name := preset.name, patch_number := preset.patch_number
                    bank_number := preset.bank_number
                    library := preset.library, genre := preset.genre
                    morphology := preset.morphology
                    regions := preset.regions.map toEPresetRegion }
        instruments := sf.instruments.map
          (fun i => ⟨i.name, i.regions.map toEInstrumentRegion⟩)
        regions := preset.regions.map toEPresetRegion
        sample_headers := sf.sample_headers.map copyHeader }

/-- The `let mut gs = [0; GeneratorType::COUNT]; for (i, v) in
r.gs.iter().enumerate() { gs[i] = *v }` loop of `from_exported_preset`: the
first `r.gs.len()` slots take the vector's values, the rest stay 0; a vector
longer than the array panics at index `COUNT` (`none`). -/
def fillGs (l : List Int) : Option (List Int) :=
  if l.length ≤ genCount then some (l ++ List.replicate (genCount - l.length) 0)
  else none

/-- The option-propagating element-wise rebuild used by
`from_exported_preset` for its region and instrument lists (the Rust loop
either fills every element or panics part-way). -/
def mapOpt {α β : Type} (f : α → Option β) : List α → Option (List β)
  | [] => some []
  | x :: xs => do
      let y ← f x
      let ys ← mapOpt f xs
      pure (y :: ys)

/-- Rebuild one preset region from its export form. -/
def fromEPresetRegion (r : EPresetRegion) : Option PresetRegion :=
  match fillGs r.gs with
  | some gs => some ⟨gs, r.instrument⟩
  | none => none

/-- Rebuild one instrument region from its export form. -/
def fromEInstrumentRegion (r : EInstrumentRegion) : Option InstrumentRegion :=
  match fillGs r.gs with
  | some gs => some ⟨gs, r.sample_start, r.sample_end, r.sample_start_loop,
      r.sample_end_loop, r.sample_sample_rate, r.sample_original_pitch,
      r.sample_pitch_correction⟩
  | none => none

/-- `SoundFont::from_exported_preset` (`soundfont.rs`): rebuild a bank whose
single preset takes its metadata from `e.preset` and its regions from the
top-level `e.regions`, with the instruments, sample headers, wave data, and
info copied back; `none` models the array-fill panic. -/
def SoundFont.from_exported_preset (e : ExportedPreset) : Option SoundFont := do
  let pregions ← mapOpt fromEPresetRegion e.regions
  let instruments ← mapOpt (fun i => do
    let rs ← mapOpt fromEInstrumentRegion i.regions
    pure (⟨i.name, rs⟩ : Instrument)) e.instruments
  pure { info := copyInfo e.info
         bits_per_sample := e.bits_per_sample
         wave_data := e.wave_data
         presets := [{ name := e.preset.name
                       patch_number := e.preset.patch_number
                       bank_number := e.preset.bank_number
                       library := e.preset.library
                       genre := e.preset.genre
                       morphology := e.preset.morphology
                       regions := pregions }]
         instruments := instruments
         sample_headers := e.sample_headers.map copyHeader }

theorem copyInfo_eq (i : SoundFontInfo) : copyInfo i = i := rfl

theorem copyHeader_eq (s : SampleHeader) : copyHeader s = s := rfl

theorem map_copyHeader (l : List SampleHeader) : l.map copyHeader = l := by
  have : copyHeader = id := funext fun s => rfl
  rw [this, List.map_id]

theorem fillGs_of_len (l : List Int) (h : l.length = genCount) :
    fillGs l = some l := by
  simp [fillGs, h]

theorem mapM_round_preset (rs : List PresetRegion)
    (h : ∀ r ∈ rs, r.gs.length = genCount) :
    mapOpt fromEPresetRegion (rs.map toEPresetRegion) = some rs := by
  induction rs with
  | nil => simp [mapOpt]
  | cons x xs ih =>
      have hx : x.gs.length = genCount := h x (by simp)
      have ih' := ih fun r hr => h r (by simp [hr])
      simp [mapOpt, fromEPresetRegion, toEPresetRegion,
        fillGs_of_len _ hx, ih', Bind.bind, Option.bind]

theorem mapM_round_instrument_regions (rs : List InstrumentRegion)
    (h : ∀ r ∈ rs, r.gs.length = genCount) :
    mapOpt fromEInstrumentRegion (rs.map toEInstrumentRegion) = some rs := by
  induction rs with
  | nil => simp [mapOpt]
  | cons x xs ih =>
      have hx : x.gs.length = genCount := h x (by simp)
      have ih' := ih fun r hr => h r (by simp [hr])
      simp [mapOpt, fromEInstrumentRegion, toEInstrumentRegion,
        fillGs_of_len _ hx, ih', Bind.bind, Option.bind]

theorem mapM_round_instruments (il : List Instrument)
    (h : ∀ i ∈ il, ∀ r ∈ i.regions, r.gs.length = genCount) :
    mapOpt (fun i => do
        let rs ← mapOpt fromEInstrumentRegion i.regions
        pure (⟨i.name, rs⟩ : Instrument))
      (il.map (fun i => (⟨i.name, i.regions.map toEInstrumentRegion⟩ : EInstrument))) =
      some il := by
  induction il with
  | nil => simp [mapOpt]
  | cons x xs ih =>
      have hx := mapM_round_instrument_regions x.regions (h x (by simp))
      have ih' := ih fun i hi => h i (by simp [hi])
      simp only [List.map_cons, mapOpt, Bind.bind, Option.bind, Pure.pure,
        hx] at ih' ⊢
      rw [ih']

/-! ## C9 -/

/-- C9: when `export_preset` finds a preset `p`, `from_exported_preset` on
the exported value rebuilds the original bank with `[p]` as its preset list:
the single preset equals `p` (same name, patch/bank, classification ints,
regions with identical generator arrays and instrument indices), and the
instruments, sample headers, wave data, bits per sample, and info are those
of the original bank — a lossless round trip.  The length hypotheses embody
the Rust type invariant `gs : [i16; 61]`. -/
theorem export_preset_round_trip (sf : SoundFont) (bank patch : Int)
    (e : ExportedPreset) (p : Preset)
    (hfind : sf.presets.find?
      (fun q => q.bank_number == bank && q.patch_number == patch) = some p)
    (hexp : sf.export_preset bank patch = some e)
    (hpl : ∀ r ∈ p.regions, r.gs.length = genCount)
    (hil : ∀ inst ∈ sf.instruments, ∀ r ∈ inst.regions,
      r.gs.length = genCount) :
    SoundFont.from_exported_preset e = some { sf with presets := [p] } := by
  simp only [SoundFont.export_preset, hfind] at hexp
  injection hexp with he
  subst he
  simp only [SoundFont.from_exported_preset]
  rw [mapM_round_preset p.regions hpl, mapM_round_instruments sf.instruments hil]
  simp only [Bind.bind, Option.bind, Pure.pure]
  rw [map_copyHeader, map_copyHeader]
  rfl

/-- A tiny bank for the C9 witness. -/
def miniSF : SoundFont :=
  { info := emptyInfo, bits_per_sample := 16, wave_data := [1, 2, 3]
    sample_headers := [demoHeader]
    presets := [{ name := "p", patch_number := 3, bank_number := 2
                  library := 0, genre := 0, morphology := 0
                  regions := [⟨zeroGs, 0⟩] }]
    instruments := [⟨"i", [{ gs := zeroGs, sample_start := 0, sample_end := 3
                             sample_start_loop := 0, sample_end_loop := 3
                             sample_sample_rate := 44100
                             sample_original_pitch := 60
                             sample_pitch_correction := 0 }]⟩] }

/-- The export of bank 2, patch 3 of `miniSF`. -/
def miniExported : ExportedPreset :=
  { info := emptyInfo, bits_per_sample := 16, wave_data := [1, 2, 3]
    preset := ⟨"p", 3, 2, 0, 0, 0, [⟨zeroGs, 0⟩]⟩
    sample_headers := [demoHeader]
    instruments := [⟨"i", [⟨zeroGs, 0, 3, 0, 3, 44100, 60, 0⟩]⟩]
    regions := [⟨zeroGs, 0⟩] }

/-- Witness for C9: exporting bank 2, patch 3 of `miniSF` and restoring it
reproduces `miniSF` (whose preset list is already exactly that preset). -/
theorem export_preset_round_trip_witness :
    miniSF.export_preset 2 3 = some miniExported ∧
    SoundFont.from_exported_preset miniExported = some miniSF := by
  refine ⟨rfl, ?_⟩
  exact export_preset_round_trip miniSF 2 3 miniExported
    { name := "p", patch_number := 3, bank_number := 2, library := 0
      genre := 0, morphology := 0, regions := [⟨zeroGs, 0⟩] }
    rfl rfl
    (by intro r hr; simp at hr; subst hr; rfl)
    (by
      intro inst hi r hr
      simp [miniSF] at hi
      subst hi
      simp at hr
      subst hr
      rfl)

end RustySynth
